import Mathlib

/-!
Verification of the RecipeDigitizer server (`server.ts`): a shallow embedding
of its startup schema reconciler and of its policy / authorization layer,
with theorems settling the specification's claims about them.

Conventions of the embedding:
* SQLite values are modelled by `SqlVal` (integer, text, or NULL — the three
  storage classes this system produces).
* `crypto.randomUUID()` is modelled by an injective supply `uuid : Nat → String`
  threaded through the code as a counter; every generated identifier is text of
  length ≥ 36, which is all the code ever depends on.
* A stored bcrypt hash is modelled by the plaintext it encodes:
  `bcrypt.compareSync(p, h)` is exactly "`h` is a hash of `p`", so comparing
  plaintexts is a faithful rendering of hash comparison.
* JavaScript's `parseInt` is modelled by `parseIntJS`, with `none` for `NaN`;
  every `NaN` comparison in the source (`x < NaN` is false) is rendered by
  matching on the `Option`.
-/

namespace RecipeDigitizer

/-- SQLite storage classes produced by this application: INTEGER, TEXT, NULL. -/
inductive SqlVal where
  | int (n : Int)
  | text (s : String)
  | null
deriving DecidableEq, Repr

/-- SQL `=` comparison (three-valued logic collapsed to `false` on NULL):
`col = ?` never matches when either side is NULL. -/
def sqlEq : SqlVal → SqlVal → Bool
  | .null, _ => false
  | _, .null => false
  | .int a, .int b => a = b
  | .text a, .text b => a = b
  | _, _ => false

/-- JavaScript `===` / `Map` key equality on column values (here NULL does
equal NULL, unlike SQL `=`). -/
def jsEq (a b : SqlVal) : Bool := a = b

/-- Model of `crypto.randomUUID()`: the `n`-th identifier drawn from the
process's supply.  All the code relies on is that generated identifiers are
distinct text values of length ≥ 36 (a UUID string has 36 characters);
`uuid n` has length `n + 36`, which gives injectivity by a length argument. -/
def uuid (n : Nat) : String :=
  String.mk (List.replicate n 'u' ++ List.replicate 36 '0')

theorem uuid_length (n : Nat) : (uuid n).length = n + 36 := by
  simp [uuid, String.length]

theorem uuid_injective : Function.Injective uuid := by
  intro m n h
  have := congrArg String.length h
  simpa [uuid_length] using this

/-- Is the character a JavaScript whitespace character (the ones relevant to
`parseInt`'s leading-whitespace skipping)? -/
def isJsSpace (c : Char) : Bool :=
  c = ' ' || c = '\t' || c = '\n' || c = '\r'

/-- Value of a list of decimal digits (most significant first), `none` when
the list is empty. -/
def digitsVal : List Char → Option Nat
  | [] => none
  | cs =>
    some (cs.foldl (fun acc c => acc * 10 + (c.toNat - '0'.toNat)) 0)

/-- JavaScript `parseInt(s)` (radix 10, no `0x` input occurs in this system):
skip leading whitespace, read an optional sign, then the longest prefix of
decimal digits; `NaN` (modelled as `none`) when no digit is found. -/
def parseIntJS (s : String) : Option Int :=
  let cs := s.toList.dropWhile isJsSpace
  let (sign, rest) : Int × List Char :=
    match cs with
    | '-' :: r => (-1, r)
    | '+' :: r => (1, r)
    | r => (1, r)
  match digitsVal (rest.takeWhile Char.isDigit) with
  | none => none
  | some v => some (sign * v)

/-- Settings rows: the `settings` table is a flat `key`/`value` store. -/
abbrev Settings := List (String × String)

/-- `SELECT value FROM settings WHERE key = ?` (first matching row). -/
def settingGet (s : Settings) (k : String) : Option String :=
  (s.find? (fun p => p.1 = k)).map (·.2)

/-- `s.passwordMinLength || "10"`: JS `||` falls through on `undefined`
(key absent) and on the empty string (falsy). -/
def rawMinLength (s : Settings) : String :=
  match settingGet s "passwordMinLength" with
  | none => "10"
  | some v => if v = "" then "10" else v

/-- The parsed minimum length used by `validatePassword`
(`parseInt(s.passwordMinLength || "10")`); `none` is JavaScript's `NaN`. -/
def minLengthOf (s : Settings) : Option Int :=
  parseIntJS (rawMinLength s)

/-- `s.passwordRequireSpecial === "1"`. -/
def requireSpecialOf (s : Settings) : Bool :=
  settingGet s "passwordRequireSpecial" = some "1"

/-- `s.passwordRequireNumber === "1"`. -/
def requireNumberOf (s : Settings) : Bool :=
  settingGet s "passwordRequireNumber" = some "1"

/-- The special characters accepted by the regex [!@#$%^&*(),.?":\x7b\x7d|<>]. -/
def specialChars : List Char :=
  ['!', '@', '#', '$', '%', '^', '&', '*', '(', ')', ',', '.', '?', '\"',
   ':', '\x7b', '\x7d', '|', '<', '>']

/-- `/\d/.test(password)`. -/
def hasDigit (pw : String) : Bool := pw.toList.any Char.isDigit

/-- Test of the special-character regex against the password. -/
def hasSpecial (pw : String) : Bool := pw.toList.any (fun c => specialChars.contains c)

/-- The "too short" message: `Password must be at least ${minLength} characters.`
(`${NaN}` would print "NaN", but the branch producing the message can only be
reached when the parsed minimum is an actual number). -/
def lengthMsg (m : Option Int) : String :=
  "Password must be at least " ++ (match m with | some n => toString n | none => "NaN")
    ++ " characters."

def numberMsg : String := "Password must contain at least one number."

def specialMsg : String := "Password must contain at least one special character."

/-- `password.length < minLength` under JS semantics: false when the parsed
minimum is `NaN`. -/
def tooShort (m : Option Int) (len : Nat) : Bool :=
  match m with
  | some n => (len : Int) < n
  | none => false

/-- `validatePassword` (server.ts lines 328–343): reads the password policy
from the settings store each call; returns `some reason` for the first rule
violated, `none` when the password is accepted.  `password.length < minLength`
is false whenever `minLength` is `NaN`. -/
def validatePassword (s : Settings) (pw : String) : Option String :=
  let minLength := minLengthOf s
  let requireSpecial := requireSpecialOf s
  let requireNumber := requireNumberOf s
  if tooShort minLength pw.length then
    some (lengthMsg minLength)
  else if requireNumber && !hasDigit pw then
    some numberMsg
  else if requireSpecial && !hasSpecial pw then
    some specialMsg
  else
    none

/-- The three password-policy rows seeded at startup (and the state assumed by
the spec's password-policy scenario). -/
def defaultPolicy : Settings :=
  [("passwordMinLength", "10"), ("passwordRequireSpecial", "1"),
   ("passwordRequireNumber", "1")]

/-! ## Runtime state and request handlers

The per-request layer.  At this point of the program's life every identifier
is a TEXT uuid, so rows carry plain `String` ids.  Only the columns the
handlers under scrutiny read or write are modelled. -/

/-- A `users` row as the request handlers see it.  `password` stands for the
plaintext encoded by the stored bcrypt hash (see the header comment). -/
structure User where
  id : String
  username : String
  password : String
  role : String
  canEditMealie : Int
  requirePasswordChange : Int
deriving DecidableEq, Repr

/-- A `recipes` row (the columns read or written by the handlers at issue). -/
structure Recipe where
  id : String
  userId : String
  name : String
  collectionId : Option String
  publicToken : Option String
deriving DecidableEq, Repr

/-- A `collections` row. -/
structure Collection where
  id : String
  userId : String
  name : String
  description : String
deriving DecidableEq, Repr

/-- A `meal_plan` row. -/
structure MealPlanEntry where
  id : String
  userId : String
  recipeId : String
  date : String
  mealType : String
deriving DecidableEq, Repr

/-- The database state the request handlers operate on. -/
structure St where
  users : List User
  recipes : List Recipe
  collections : List Collection
  mealPlan : List MealPlanEntry
  settings : Settings
deriving DecidableEq, Repr

/-- The identity a logged-in session carries (`req.session`): set at login
from the user row. -/
structure Sess where
  userId : String
  username : String
  role : String
deriving DecidableEq, Repr

/-- A handler's response, collapsed to what the claims distinguish: a 200
response versus an error with its HTTP status and message. -/
inductive Resp where
  | ok
  | err (status : Nat) (msg : String)
deriving DecidableEq, Repr

/-- `SELECT ... FROM users WHERE id = ?`. -/
def findUser (users : List User) (uid : String) : Option User :=
  users.find? (fun u => u.id = uid)

/-- `req.path.replace(/\/$/, "")`: strip one trailing slash. -/
def stripSlash (p : String) : String :=
  match p.toList.getLast? with
  | some '/' => String.mk p.toList.dropLast
  | _ => p

/-- The `checkPasswordChange` middleware (server.ts lines 317–326), applied to
every request.  Returns `some resp` when it short-circuits with a rejection,
`none` when it calls `next()`.  A request with no session, or whose user row is
gone, falls through (`user?.require_password_change === 1` is false then). -/
def checkPasswordChange (users : List User) (sessUserId : Option String)
    (path : String) : Option Resp :=
  match sessUserId with
  | none => none
  | some uid =>
    let flag := (findUser users uid).map (·.requirePasswordChange)
    let p := stripSlash path
    if flag = some 1 && !(p = "/api/auth/change-password") && !(p = "/api/auth/me")
        && !(p = "/api/auth/logout") then
      some (.err 403 "Password change required")
    else
      none

/-- `POST /api/auth/change-password` (server.ts lines 419–437), past its
`isAuthenticated` guard: validate the new password, then store its hash and
clear `require_password_change` in one UPDATE. -/
def changePasswordEp (st : St) (s : Sess) (pw : String) : Resp × St :=
  match validatePassword st.settings pw with
  | some e => (.err 400 e, st)
  | none =>
    (.ok,
     { st with users := st.users.map (fun u =>
        if u.id = s.userId then
          { u with password := pw, requirePasswordChange := 0 }
        else u) })

/-- `COUNT(*) FROM users WHERE role = 'admin' AND id != ?`. -/
def countOtherAdmins (users : List User) (tid : String) : Nat :=
  (users.filter (fun u => u.role = "admin" && u.id ≠ tid)).length

/-- `DELETE /api/admin/users/:id` (server.ts lines 492–512), past
`isAuthenticated, isAdmin`: 404 for an unknown id; refuse to delete the last
admin; otherwise delete the row.  (The self-delete session destruction only
affects the requester's session, not the table, and is not modelled.) -/
def deleteUserEp (st : St) (tid : String) : Resp × St :=
  match findUser st.users tid with
  | none => (.err 404 "User not found", st)
  | some target =>
    if target.role = "admin" && countOtherAdmins st.users tid = 0 then
      (.err 400 "Cannot delete the last admin", st)
    else
      (.ok, { st with users := st.users.filter (fun u => !(u.id = tid)) })

/-- `POST /api/collections` (server.ts lines 572–582), past `isAuthenticated`:
inserts unconditionally — there is no readonly-role check on this route. -/
def createCollectionEp (st : St) (s : Sess) (cid name description : String) :
    Resp × St :=
  (.ok, { st with collections :=
            st.collections ++ [⟨cid, s.userId, name, description⟩] })

/-- `DELETE /api/collections/:id` (server.ts lines 584–598), past
`isAuthenticated`: 404 when absent, owner-or-admin check (no readonly check),
then delete the row and null out `collection_id` on its recipes. -/
def deleteCollectionEp (st : St) (s : Sess) (cid : String) : Resp × St :=
  match st.collections.find? (fun c => c.id = cid) with
  | none => (.err 404 "Collection not found", st)
  | some c =>
    if !(s.role = "admin") && !(c.userId = s.userId) then
      (.err 403 "Forbidden", st)
    else
      (.ok, { st with
        collections := st.collections.filter (fun c => !(c.id = cid)),
        recipes := st.recipes.map (fun r =>
          if r.collectionId = some cid then { r with collectionId := none } else r) })

/-- `POST /api/meal-plan` (server.ts lines 616–626), past `isAuthenticated`:
inserts unconditionally — no readonly-role check on this route either. -/
def createMealPlanEp (st : St) (s : Sess) (mid rid date mealType : String) :
    Resp × St :=
  (.ok, { st with mealPlan := st.mealPlan ++ [⟨mid, s.userId, rid, date, mealType⟩] })

/-- `DELETE /api/meal-plan/:id` (server.ts lines 628–640), past
`isAuthenticated`: 404 when absent, owner-or-admin check, delete. -/
def deleteMealPlanEp (st : St) (s : Sess) (mid : String) : Resp × St :=
  match st.mealPlan.find? (fun m => m.id = mid) with
  | none => (.err 404 "Meal plan entry not found", st)
  | some m =>
    if !(s.role = "admin") && !(m.userId = s.userId) then
      (.err 403 "Forbidden", st)
    else
      (.ok, { st with mealPlan := st.mealPlan.filter (fun m => !(m.id = mid)) })

/-- `POST /api/recipes` (server.ts lines 689–712), past `isAuthenticated`:
readonly sessions are rejected; otherwise insert owned by the session user. -/
def createRecipeEp (st : St) (s : Sess) (rid name : String)
    (collectionId : Option String) : Resp × St :=
  if s.role = "readonly" then (.err 403 "Read-only access", st)
  else
    (.ok, { st with recipes := st.recipes ++ [⟨rid, s.userId, name, collectionId, none⟩] })

/-- `PUT /api/recipes/:id` (server.ts lines 714–744), past `isAuthenticated`:
readonly rejected, 404 when absent, owner-or-admin check, then update. -/
def updateRecipeEp (st : St) (s : Sess) (rid name : String)
    (collectionId : Option String) : Resp × St :=
  if s.role = "readonly" then (.err 403 "Read-only access", st)
  else
    match st.recipes.find? (fun r => r.id = rid) with
    | none => (.err 404 "Recipe not found", st)
    | some r =>
      if !(s.role = "admin") && !(r.userId = s.userId) then
        (.err 403 "Forbidden", st)
      else
        (.ok, { st with recipes := st.recipes.map (fun r =>
          if r.id = rid then { r with name := name, collectionId := collectionId }
          else r) })

/-- `DELETE /api/recipes/:id` (server.ts lines 746–761), past
`isAuthenticated`: readonly rejected; an admin's DELETE is keyed on id alone,
anyone else's on id AND user_id — and the response is `{success}` in every
case, even when the scoped DELETE matched no row. -/
def deleteRecipeEp (st : St) (s : Sess) (rid : String) : Resp × St :=
  if s.role = "readonly" then (.err 403 "Read-only access", st)
  else if s.role = "admin" then
    (.ok, { st with recipes := st.recipes.filter (fun r => !(r.id = rid)) })
  else
    (.ok, { st with recipes := st.recipes.filter (fun r =>
      !(r.id = rid && r.userId = s.userId)) })

/-- The row update of `UPDATE recipes SET public_token = ? WHERE id = ?`. -/
def shareUpd (rid tok : String) (q : Recipe) : Recipe :=
  if q.id = rid then { q with publicToken := some tok } else q

/-- `POST /api/recipes/:id/share` (server.ts lines 778–792), past
`isAuthenticated`: 404 when absent, owner-or-admin check, then overwrite
`public_token` with a fresh uuid (`tok` here). -/
def shareRecipeEp (st : St) (s : Sess) (rid tok : String) : Resp × St :=
  match st.recipes.find? (fun r => r.id = rid) with
  | none => (.err 404 "Recipe not found", st)
  | some r =>
    if !(s.role = "admin") && !(r.userId = s.userId) then
      (.err 403 "Forbidden", st)
    else
      (.ok, { st with recipes := st.recipes.map (shareUpd rid tok) })

/-- `SELECT * FROM recipes WHERE public_token = ?` — the lookup behind the
unauthenticated `GET /api/public/recipe/:token` (server.ts lines 764–776);
`none` means the endpoint answers 404.  SQL `=` never matches a NULL token. -/
def publicLookup (st : St) (tok : String) : Option Recipe :=
  st.recipes.find? (fun r => r.publicToken = some tok)

/-- The optional fields of a `POST /api/settings` body that concern the
password policy (the Mealie fields are carried along for faithfulness). -/
structure SettingsBody where
  mealieUrl : Option String
  mealieToken : Option String
  passwordMinLength : Option String
  passwordRequireSpecial : Option Bool
  passwordRequireNumber : Option Bool
deriving Repr

/-- `INSERT OR REPLACE INTO settings (key, value) VALUES (?, ?)`. -/
def upsertSetting (s : Settings) (k v : String) : Settings :=
  if s.any (fun p => p.1 = k) then
    s.map (fun p => if p.1 = k then (k, v) else p)
  else
    s ++ [(k, v)]

/-- The floor check of `POST /api/settings`:
`passwordMinLength !== undefined && parseInt(passwordMinLength) < 10`.
`NaN < 10` is false, so an unparseable value passes the check. -/
def minLengthBelowFloor (v : Option String) : Bool :=
  match v with
  | some v =>
    match parseIntJS v with
    | some n => n < 10
    | none => false
  | none => false

/-- `POST /api/settings` (server.ts lines 524–547), past `isAuthenticated`:
permission check against the user row (not the session), then the floor check
`parseInt(passwordMinLength) < 10` — which a value parsing to `NaN` passes —
then the upserts. -/
def settingsPostEp (st : St) (s : Sess) (body : SettingsBody) : Resp × St :=
  match findUser st.users s.userId with
  | none => (.err 500 "Internal error", st)
  | some u =>
    if !(u.role = "admin") && u.canEditMealie = 0 then
      (.err 403 "Permission denied to edit settings", st)
    else if minLengthBelowFloor body.passwordMinLength then
      (.err 400 "Minimum password length cannot be less than 10", st)
    else
      let s0 := st.settings
      let s1 := match body.mealieUrl with
                | some v => upsertSetting s0 "mealieUrl" v | none => s0
      let s2 := match body.mealieToken with
                | some v => upsertSetting s1 "mealieToken" v | none => s1
      let s3 := match body.passwordMinLength with
                | some v => upsertSetting s2 "passwordMinLength" v | none => s2
      let s4 := match body.passwordRequireSpecial with
                | some b => upsertSetting s3 "passwordRequireSpecial" (if b then "1" else "0")
                | none => s3
      let s5 := match body.passwordRequireNumber with
                | some b => upsertSetting s4 "passwordRequireNumber" (if b then "1" else "0")
                | none => s4
      (.ok, { st with settings := s5 })

/-! ## The route table and its authentication guards (for the session-check
claim).  One constructor per API route registered in `startServer`. -/

/-- The API routes of `server.ts` (static/Vite serving aside). -/
inductive Route where
  | debugAdmin          -- GET  /api/debug/admin
  | debugSession        -- GET  /api/debug/session
  | login               -- POST /api/auth/login
  | logout              -- POST /api/auth/logout
  | me                  -- GET  /api/auth/me
  | changePassword      -- POST /api/auth/change-password
  | passwordRequirements -- GET /api/auth/password-requirements
  | adminUsersGet       -- GET  /api/admin/users
  | adminUsersPost      -- POST /api/admin/users
  | adminUserPut        -- PUT  /api/admin/users/:id
  | adminUserDelete     -- DELETE /api/admin/users/:id
  | settingsGet         -- GET  /api/settings
  | settingsPost        -- POST /api/settings
  | auditLogs           -- GET  /api/admin/audit-logs
  | collectionsGet      -- GET  /api/collections
  | collectionsPost     -- POST /api/collections
  | collectionsDelete   -- DELETE /api/collections/:id
  | mealPlanGet         -- GET  /api/meal-plan
  | mealPlanPost        -- POST /api/meal-plan
  | mealPlanDelete      -- DELETE /api/meal-plan/:id
  | recipesGet          -- GET  /api/recipes
  | recipesPost         -- POST /api/recipes
  | recipesPut          -- PUT  /api/recipes/:id
  | recipesDelete       -- DELETE /api/recipes/:id
  | publicRecipe        -- GET  /api/public/recipe/:token
  | shareRecipe         -- POST /api/recipes/:id/share
  | exportRecipe        -- GET  /api/recipes/:id/export
  | nutrition           -- POST /api/recipes/:id/nutrition
  | shoppingList        -- GET  /api/shopping-list
  | mealieSubmit        -- POST /api/mealie/submit
deriving DecidableEq, Repr

open Route in
/-- Does the route's registration carry the `isAuthenticated` middleware?
Transcribed route by route from `server.ts`; the debug routes (lines 352–364),
the auth routes other than change-password, and the public recipe route carry
no guard. -/
def hasIsAuthenticated : Route → Bool
  | debugAdmin => false
  | debugSession => false
  | login => false
  | logout => false
  | me => false
  | changePassword => true
  | passwordRequirements => false
  | adminUsersGet => true
  | adminUsersPost => true
  | adminUserPut => true
  | adminUserDelete => true
  | settingsGet => true
  | settingsPost => true
  | auditLogs => true
  | collectionsGet => true
  | collectionsPost => true
  | collectionsDelete => true
  | mealPlanGet => true
  | mealPlanPost => true
  | mealPlanDelete => true
  | recipesGet => true
  | recipesPost => true
  | recipesPut => true
  | recipesDelete => true
  | publicRecipe => false
  | shareRecipe => true
  | exportRecipe => true
  | nutrition => true
  | shoppingList => true
  | mealieSubmit => true

open Route in
/-- For the routes with no `isAuthenticated` guard: does the handler itself
reject a session-less request with a 401?  Only `GET /api/auth/me`
(server.ts lines 409–417) checks `req.session.userId` and answers 401
"Not logged in"; the debug handlers return data, logout answers `{success}`,
and the three public handlers serve their content. -/
def handlerRejectsNoSession : Route → Bool
  | me => true
  | _ => false

/-- Is an unauthenticated request to the route rejected with an
authentication-required error (either by the `isAuthenticated` middleware's
401 or by the handler's own session check)?  The `checkPasswordChange`
middleware passes session-less requests through (line 318). -/
def unauthRejected (r : Route) : Bool :=
  hasIsAuthenticated r || handlerRejectsNoSession r

/-- The three endpoints the spec lists as always public. -/
def publicRoutes : List Route := [.login, .publicRecipe, .passwordRequirements]

/-! ## The startup Schema Reconciler (server.ts lines 33–230)

Run once before the server accepts requests.  Here identifiers may still be
legacy INTEGERs (or NULL), so rows carry `SqlVal` ids.  The schema side of the
state records, per table, whether it exists and its column list (plus the
declared type of `users.id`, which the INTEGER→TEXT migration branches on).
The tables whose rows no reconciliation step touches are carried as presence
plus a row count. -/

/-- A `users` row at startup. -/
structure DbUser where
  id : SqlVal
  username : String
  password : String
  role : String
  canEditMealie : Int
  requirePasswordChange : Int
  createdAt : String
deriving DecidableEq, Repr

/-- A `recipes` row at startup: the base columns the INTEGER→TEXT migration
copies.  (Values of the later additive columns are dropped by that migration
and read by no reconciliation step, so they are not carried.) -/
structure DbRecipe where
  id : SqlVal
  userId : SqlVal
  name : String
  description : String
  ingredients : String
  instructions : String
  imageData : String
  mimeType : String
  createdAt : String
deriving DecidableEq, Repr

/-- The on-disk database as the reconciler sees it. -/
structure DB where
  usersPresent : Bool
  usersIdType : String
  usersCols : List String
  usersRows : List DbUser
  settingsPresent : Bool
  settingsRows : Settings
  recipesPresent : Bool
  recipesCols : List String
  recipesRows : List DbRecipe
  auditPresent : Bool
  auditCount : Nat
  collectionsPresent : Bool
  collectionsCount : Nat
  mealPlanPresent : Bool
  mealPlanCount : Nat
  recipeImagesPresent : Bool
  recipeImagesCount : Nat
deriving DecidableEq, Repr

/-- Columns of the target `users` schema (lines 36–44). -/
def targetUsersCols : List String :=
  ["id", "username", "password", "role", "can_edit_mealie",
   "require_password_change", "created_at"]

/-- Columns of the `recipes` schema as created by `CREATE TABLE IF NOT EXISTS`
and by the migration (lines 51–62 and 151–162): the base columns only. -/
def baseRecipesCols : List String :=
  ["id", "user_id", "name", "description", "ingredients", "instructions",
   "image_data", "mime_type", "created_at"]

/-- ASCII uppercasing of one character (all SQLite type names are ASCII). -/
def upChar (ch : Char) : Char :=
  if 97 ≤ ch.toNat ∧ ch.toNat ≤ 122 then Char.ofNat (ch.toNat - 32) else ch

/-- JavaScript `String.prototype.toUpperCase()` on the ASCII type names the
migration inspects. -/
def jsToUpper (s : String) : String := String.mk (s.toList.map upChar)

/-- Step 1, `CREATE TABLE IF NOT EXISTS` for every base table (lines 35–103):
an absent table is created empty under the target schema; an existing one is
left untouched. -/
def createIfAbsent (db : DB) : DB :=
  { usersPresent := true
    usersIdType := if db.usersPresent then db.usersIdType else "TEXT"
    usersCols := if db.usersPresent then db.usersCols else targetUsersCols
    usersRows := if db.usersPresent then db.usersRows else []
    settingsPresent := true
    settingsRows := if db.settingsPresent then db.settingsRows else []
    recipesPresent := true
    recipesCols := if db.recipesPresent then db.recipesCols else baseRecipesCols
    recipesRows := if db.recipesPresent then db.recipesRows else []
    auditPresent := true
    auditCount := if db.auditPresent then db.auditCount else 0
    collectionsPresent := true
    collectionsCount := if db.collectionsPresent then db.collectionsCount else 0
    mealPlanPresent := true
    mealPlanCount := if db.mealPlanPresent then db.mealPlanCount else 0
    recipeImagesPresent := true
    recipeImagesCount := if db.recipeImagesPresent then db.recipeImagesCount else 0 }

/-- `ALTER TABLE ... ADD COLUMN c`, with the duplicate-column error swallowed:
a column that already exists leaves the list unchanged. -/
def addColumn (cols : List String) (c : String) : List String :=
  if c ∈ cols then cols else cols ++ [c]

/-- Step 2, the additive column migrations on `recipes` (lines 105–128), in
source order: `tags`, `collection_id`, `nutrition_info`, `public_token`,
`servings`. -/
def addRecipeColumns (db : DB) : DB :=
  { db with recipesCols :=
      addColumn (addColumn (addColumn (addColumn (addColumn db.recipesCols
        "tags") "collection_id") "nutrition_info") "public_token") "servings" }

/-- The old→new id map built while migrating users (`idMap`), looked up with
JavaScript `Map` key equality. -/
def lookupMap (m : List (SqlVal × String)) (k : SqlVal) : Option String :=
  (m.find? (fun p => jsEq p.1 k)).map (·.2)

/-- A migrated user row: the copied row under its fresh identifier. -/
def migUserRow (nid : String) (u : DbUser) : DbUser := { u with id := .text nid }

/-- A migrated recipe's rewritten owner reference: the id map's entry for the
old owner (an unmapped owner inserts NULL — the code relies on every recipe's
owner existing). -/
def mapOwner (m : List (SqlVal × String)) (v : SqlVal) : SqlVal :=
  match lookupMap m v with
  | some s => .text s
  | none => .null

/-- A migrated recipe row: fresh identifier, owner rewritten through the map. -/
def migRecipeRow (nid : String) (nuid : SqlVal) (r : DbRecipe) : DbRecipe :=
  { r with id := .text nid, userId := nuid }

/-- The user-copy loop of the migration (lines 169–176): each old row gets a
fresh uuid, is inserted with it, and the old→new pair is recorded.  Returns
the new rows, the id map, and the next counter. -/
def migrateUsers : List DbUser → Nat → List DbUser × List (SqlVal × String) × Nat
  | [], c => ([], [], c)
  | u :: us, c =>
    let nid := uuid c
    let rest := migrateUsers us (c + 1)
    (migUserRow nid u :: rest.1, (u.id, nid) :: rest.2.1, rest.2.2)

/-- The recipe-copy loop of the migration (lines 178–186): each old row gets a
fresh uuid and its `user_id` is rewritten through the id map. -/
def migrateRecipes : List DbRecipe → List (SqlVal × String) → Nat →
    List DbRecipe × Nat
  | [], _, c => ([], c)
  | r :: rs, m, c =>
    let nid := uuid c
    let rest := migrateRecipes rs m (c + 1)
    (migRecipeRow nid (mapOwner m r.userId) r :: rest.1, rest.2)

/-- Step 3, the INTEGER→TEXT primary-key migration (lines 130–193): if the
declared type of `users.id` is an integer type, rebuild `users` and `recipes`
under the target schema inside one transaction, copying every row with fresh
text identifiers and rewriting each recipe's owner through the id map. -/
def migrateStep (db : DB) (c : Nat) : DB × Nat :=
  if db.usersPresent && jsToUpper db.usersIdType = "INTEGER" then
    let mu := migrateUsers db.usersRows c
    let mr := migrateRecipes db.recipesRows mu.2.1 mu.2.2
    ({ db with
        usersIdType := "TEXT"
        usersCols := targetUsersCols
        usersRows := mu.1
        recipesCols := baseRecipesCols
        recipesRows := mr.1 }, mr.2)
  else
    (db, c)

/-- Step 4, `ALTER TABLE users ADD COLUMN require_password_change` with the
duplicate-column error swallowed (lines 195–198). -/
def addPwChangeColumn (db : DB) : DB :=
  { db with usersCols := addColumn db.usersCols "require_password_change" }

/-- `typeof(id) != 'text' OR length(id) < 30` — the selection predicate of the
identifier backfill (line 201). -/
def isBadId : SqlVal → Bool
  | .text s => s.length < 30
  | _ => true

/-- `UPDATE users SET id = ? WHERE id = ?` applied to one row, with SQL `=`
matching (a NULL old id matches no row, so such rows are never rewritten). -/
def backfillUserRow (b : SqlVal) (nid : String) (u : DbUser) : DbUser :=
  if sqlEq u.id b then { u with id := .text nid } else u

/-- `UPDATE recipes SET user_id = ? WHERE user_id = ?` applied to one row. -/
def backfillRecipeRow (b : SqlVal) (nid : String) (r : DbRecipe) : DbRecipe :=
  if sqlEq r.userId b then { r with userId := .text nid } else r

/-- The backfill loop (lines 202–206) over the ids selected up front, one
fresh uuid per selected row: each iteration runs the two UPDATEs. -/
def backfillLoop : List SqlVal → List DbUser → List DbRecipe → Nat →
    List DbUser × List DbRecipe × Nat
  | [], ur, rr, c => (ur, rr, c)
  | b :: bs, ur, rr, c =>
    backfillLoop bs (ur.map (backfillUserRow b (uuid c)))
      (rr.map (backfillRecipeRow b (uuid c))) (c + 1)

/-- Step 5, the identifier backfill (lines 200–206): select the users whose id
is not a well-formed text identifier, then rewrite each (and its recipes)
row by row. -/
def backfillStep (db : DB) (c : Nat) : DB × Nat :=
  let bad := (db.usersRows.filter (fun u => isBadId u.id)).map (·.id)
  let r := backfillLoop bad db.usersRows db.recipesRows c
  ({ db with usersRows := r.1, recipesRows := r.2.1 }, r.2.2)

/-- `INSERT OR IGNORE INTO settings (key, value) VALUES (?, ?)`. -/
def insertOrIgnore (s : Settings) (k v : String) : Settings :=
  if s.any (fun p => p.1 = k) then s else s ++ [(k, v)]

/-- Step 6, seeding the default password-policy settings (lines 208–212). -/
def seedSettings (db : DB) : DB :=
  let s1 := insertOrIgnore db.settingsRows "passwordMinLength" "10"
  let s2 := insertOrIgnore s1 "passwordRequireSpecial" "1"
  let s3 := insertOrIgnore s2 "passwordRequireNumber" "1"
  { db with settingsRows := s3 }

/-- The default admin row inserted at bootstrap (line 218); `created_at` takes
its DATETIME default, abstracted as a fixed value. -/
def bootstrapAdmin (nid : String) : DbUser :=
  { id := .text nid, username := "admin", password := "Admin@12345",
    role := "admin", canEditMealie := 1, requirePasswordChange := 1,
    createdAt := "CURRENT_TIMESTAMP" }

/-- The row update of the password reset `UPDATE users SET password = ?,
require_password_change = 1 WHERE username = 'admin'` (line 226). -/
def resetAdminPw (u : DbUser) : DbUser :=
  if u.username = "admin" then
    { u with password := "Admin@12345", requirePasswordChange := 1 }
  else u

/-- The row-level logic of step 7 (lines 214–230): if no user has role admin,
insert the default admin; otherwise, if the user named "admin" still carries
one of the two historical default passwords, reset it to the current default
and set the forced-change flag. -/
def adminFix (rows : List DbUser) (c : Nat) : List DbUser × Nat :=
  if rows.any (fun u => u.role = "admin") then
    match rows.find? (fun u => u.username = "admin") with
    | some au =>
      if au.password = "admin123" || au.password = "admin" then
        (rows.map resetAdminPw, c)
      else (rows, c)
    | none => (rows, c)
  else
    (rows ++ [bootstrapAdmin (uuid c)], c + 1)

/-- Step 7, seeding or repairing the bootstrap admin (lines 214–230). -/
def adminStep (db : DB) (c : Nat) : DB × Nat :=
  let r := adminFix db.usersRows c
  ({ db with usersRows := r.1 }, r.2)

/-- The full reconciliation sequence, in source order: create-if-absent,
additive recipe columns, INTEGER→TEXT migration, additive users column,
identifier backfill, settings seeds, admin seed/repair. -/
def reconcile (db : DB) (c : Nat) : DB × Nat :=
  let db2 := addRecipeColumns (createIfAbsent db)
  let p3 := migrateStep db2 c
  let p5 := backfillStep (addPwChangeColumn p3.1) p3.2
  adminStep (seedSettings p5.1) p5.2

/-! ## C9 — password-policy examples -/

/-- C9: under the seeded policy (minimum 10, number and special required),
`"short1!"` is rejected as too short, `"longenoughbutnospecial1"` for lacking
a special character, `"LongEnough!"` for lacking a digit, `"LongEnough1!"` is
accepted; and for every password the length rule is evaluated first — any
password shorter than 10 draws the length message, never a character-class
message. -/
theorem password_policy_examples :
    validatePassword defaultPolicy "short1!" =
      some "Password must be at least 10 characters." ∧
    validatePassword defaultPolicy "longenoughbutnospecial1" = some specialMsg ∧
    validatePassword defaultPolicy "LongEnough!" = some numberMsg ∧
    validatePassword defaultPolicy "LongEnough1!" = none ∧
    ∀ pw : String, pw.length < 10 →
      validatePassword defaultPolicy pw = some (lengthMsg (some 10)) := by
  refine ⟨by decide, by decide, by decide, by decide, ?_⟩
  intro pw h
  have hmin : minLengthOf defaultPolicy = some 10 := by decide
  have hshort : tooShort (some 10) pw.length = true := by
    simp only [tooShort, decide_eq_true_eq]
    exact_mod_cast h
  simp only [validatePassword, hmin, hshort, if_pos]

/-- Witness for the quantified part of `password_policy_examples`: the
seven-character password "a" * 7 is shorter than 10 and draws the length
message. -/
theorem password_policy_examples_witness :
    ("aaaaaaa" : String).length < 10 ∧
    validatePassword defaultPolicy "aaaaaaa" = some (lengthMsg (some 10)) :=
  ⟨by decide, password_policy_examples.2.2.2.2 "aaaaaaa" (by decide)⟩

/-! ## C7 — authentication required on non-public endpoints -/

/-- The routes a session-less request reaches without an
authentication-required rejection: the three always-public ones, the two
debug routes, and logout (which answers `{success}` to anyone). -/
def unauthReachableRoutes : List Route :=
  publicRoutes ++ [.debugAdmin, .debugSession, .logout]

/-- C7 (amended): a request with no valid session identity is rejected with an
authentication-required error on every route except the three always-public
ones (login, public-share read, password-requirements read) AND the two
unauthenticated debug routes and logout — the claim's exception list of
exactly three is too small: `GET /api/debug/admin` and
`GET /api/debug/session` carry no session guard and return data, and
`POST /api/auth/logout` succeeds trivially. -/
theorem session_check_on_routes (r : Route) (h : r ∉ unauthReachableRoutes) :
    unauthRejected r = true := by
  cases r <;>
    simp_all [unauthReachableRoutes, publicRoutes, unauthRejected,
      hasIsAuthenticated, handlerRejectsNoSession]

/-- Witness for `session_check_on_routes`: the recipes list endpoint is not in
the exception list and rejects unauthenticated requests. -/
theorem session_check_on_routes_witness :
    Route.recipesGet ∉ unauthReachableRoutes ∧
      unauthRejected Route.recipesGet = true :=
  ⟨by decide, session_check_on_routes Route.recipesGet (by decide)⟩

/-- C7 counterexample: `GET /api/debug/admin` is not one of the three
always-public endpoints, is data-returning (it serves the admin's user row,
password hash included), yet an unauthenticated request is not rejected. -/
theorem session_check_debug_admin_counterexample :
    Route.debugAdmin ∉ publicRoutes ∧ unauthRejected Route.debugAdmin = false := by
  decide

/-! ## C5 — the readonly role -/

/-- A minimal state with one readonly user, used by the counterexamples. -/
def roState : St :=
  { users := [{ id := "u-ro", username := "viewer", password := "Viewer@1234",
                role := "readonly", canEditMealie := 0,
                requirePasswordChange := 0 }],
    recipes := [], collections := [], mealPlan := [],
    settings := defaultPolicy }

/-- The readonly user's session. -/
def roSess : Sess := { userId := "u-ro", username := "viewer", role := "readonly" }

/-- C5 counterexample: a readonly user's collection creation succeeds —
`POST /api/collections` performs no readonly-role check, so the claim that
every create on every ownership-scoped resource is rejected for readonly
sessions is false. -/
theorem readonly_collection_create_counterexample :
    (createCollectionEp roState roSess "c1" "Sunday bakes" "").1 = Resp.ok ∧
    roSess.role = "readonly" := by
  decide

/-- C5 (amended): a readonly session is rejected with the authorization error
from recipe create/update/delete regardless of ownership, but the collection
and meal-plan routes perform no readonly check: a readonly user can create
collections and meal-plan entries and delete the ones it owns (only the
generic ownership rule applies). -/
theorem readonly_role_enforcement (st : St) (s : Sess) (hro : s.role = "readonly") :
    (∀ rid name colId,
      createRecipeEp st s rid name colId = (.err 403 "Read-only access", st)) ∧
    (∀ rid name colId,
      updateRecipeEp st s rid name colId = (.err 403 "Read-only access", st)) ∧
    (∀ rid, deleteRecipeEp st s rid = (.err 403 "Read-only access", st)) ∧
    (∀ cid name description,
      (createCollectionEp st s cid name description).1 = Resp.ok) ∧
    (∀ mid rid date mealType,
      (createMealPlanEp st s mid rid date mealType).1 = Resp.ok) ∧
    (∀ cid c, st.collections.find? (fun c => c.id = cid) = some c →
      c.userId = s.userId → (deleteCollectionEp st s cid).1 = Resp.ok) ∧
    (∀ mid m, st.mealPlan.find? (fun m => m.id = mid) = some m →
      m.userId = s.userId → (deleteMealPlanEp st s mid).1 = Resp.ok) := by
  refine ⟨?_, ?_, ?_, ?_, ?_, ?_, ?_⟩
  · intro rid name colId
    simp [createRecipeEp, hro]
  · intro rid name colId
    simp [updateRecipeEp, hro]
  · intro rid
    simp [deleteRecipeEp, hro]
  · intro cid name description
    simp [createCollectionEp]
  · intro mid rid date mealType
    simp [createMealPlanEp]
  · intro cid c hfind hown
    simp [deleteCollectionEp, hfind, hown, hro]
  · intro mid m hfind hown
    simp [deleteMealPlanEp, hfind, hown, hro]

/-- Witness for `readonly_role_enforcement` at the concrete readonly state:
a recipe creation is rejected. -/
theorem readonly_role_enforcement_witness :
    roSess.role = "readonly" ∧
    createRecipeEp roState roSess "r1" "Cake" none =
      (.err 403 "Read-only access", roState) :=
  ⟨by decide, (readonly_role_enforcement roState roSess (by decide)).1 "r1" "Cake" none⟩

/-! ## C6 — deleting another user's recipe -/

/-- A state holding one recipe owned by user `B`. -/
def twoUserState : St :=
  { users := [{ id := "A", username := "alice", password := "Alice@12345",
                role := "user", canEditMealie := 0, requirePasswordChange := 0 },
              { id := "B", username := "bob", password := "Bobby@12345",
                role := "user", canEditMealie := 0, requirePasswordChange := 0 }],
    recipes := [{ id := "r1", userId := "B", name := "Cake",
                  collectionId := none, publicToken := none }],
    collections := [], mealPlan := [],
    settings := defaultPolicy }

/-- Alice's session (role `user`, not the owner of `r1`). -/
def aliceSess : Sess := { userId := "A", username := "alice", role := "user" }

/-- C6 counterexample: Alice (a non-admin) deletes Bob's recipe `r1`; the row
is untouched (the DELETE is scoped to her own rows and matches nothing) but
the response is the success response, not a not-found or forbidden outcome as
the claim states. -/
theorem cross_user_delete_counterexample :
    deleteRecipeEp twoUserState aliceSess "r1" = (Resp.ok, twoUserState) := by
  decide

/-- C6 (amended): a non-admin, non-readonly user's delete of a recipe owned by
someone else leaves the recipe rows unchanged but answers with the success
response (the DELETE is keyed on id AND owner, and the handler reports success
regardless of the match count); a readonly user's attempt is rejected with
403; an admin's delete succeeds on any user's recipe and removes it. -/
theorem cross_user_delete (st : St) (s : Sess) (rid : String) :
    (s.role ≠ "readonly" → s.role ≠ "admin" →
      (∀ r ∈ st.recipes, r.id = rid → r.userId ≠ s.userId) →
      deleteRecipeEp st s rid = (Resp.ok, st)) ∧
    (s.role = "admin" →
      (deleteRecipeEp st s rid).1 = Resp.ok ∧
      ∀ r ∈ (deleteRecipeEp st s rid).2.recipes, r.id ≠ rid) ∧
    (s.role = "readonly" →
      deleteRecipeEp st s rid = (.err 403 "Read-only access", st)) := by
  refine ⟨?_, ?_, ?_⟩
  · intro hnro hnadm hothers
    unfold deleteRecipeEp
    rw [if_neg hnro, if_neg hnadm]
    have hfilter : st.recipes.filter
        (fun r => !(r.id = rid && r.userId = s.userId)) = st.recipes := by
      rw [List.filter_eq_self]
      intro r hr
      simp only [Bool.not_eq_eq_eq_not, Bool.not_true, Bool.and_eq_false_imp,
        decide_eq_true_eq, Bool.not_eq_true', decide_eq_false_iff_not]
      intro hid
      exact hothers r hr hid
    rw [hfilter]
  · intro hadm
    refine ⟨by simp [deleteRecipeEp, hadm], ?_⟩
    intro r hr
    simp [deleteRecipeEp, hadm] at hr
    exact hr.2
  · intro hro
    simp [deleteRecipeEp, hro]

/-- Witness for `cross_user_delete`, exercising all three branches on the
concrete two-user state. -/
theorem cross_user_delete_witness :
    (deleteRecipeEp twoUserState aliceSess "r1" = (Resp.ok, twoUserState)) ∧
    ((deleteRecipeEp twoUserState ⟨"S", "root", "admin"⟩ "r1").1 = Resp.ok) ∧
    (deleteRecipeEp twoUserState ⟨"A", "alice", "readonly"⟩ "r1" =
      (.err 403 "Read-only access", twoUserState)) :=
  ⟨(cross_user_delete twoUserState aliceSess "r1").1 (by decide) (by decide)
      (by decide),
   ((cross_user_delete twoUserState ⟨"S", "root", "admin"⟩ "r1").2.1 rfl).1,
   (cross_user_delete twoUserState ⟨"A", "alice", "readonly"⟩ "r1").2.2 rfl⟩

/-! ## C4 — last-admin protection -/

/-- C4: with exactly one admin user, deleting that user is rejected with the
conflict error and the users table is unchanged; with two or more admins
(under the primary-key guarantee that ids are distinct), deleting an admin
succeeds and at least one admin remains. -/
theorem last_admin_protection (st : St) (t : String) (u : User)
    (hfind : findUser st.users t = some u) (hadmin : u.role = "admin")
    (hdist : st.users.Pairwise (fun a b => a.id ≠ b.id)) :
    ((st.users.filter (fun v => v.role = "admin")).length = 1 →
      deleteUserEp st t = (.err 400 "Cannot delete the last admin", st)) ∧
    (2 ≤ (st.users.filter (fun v => v.role = "admin")).length →
      (deleteUserEp st t).1 = Resp.ok ∧
      ∃ v ∈ (deleteUserEp st t).2.users, v.role = "admin") := by
  have hmem : u ∈ st.users := List.mem_of_find?_eq_some hfind
  have hid : u.id = t := by
    have := List.find?_some hfind
    simpa using this
  constructor
  · intro hone
    have humem : u ∈ st.users.filter (fun v => v.role = "admin") := by
      rw [List.mem_filter]
      exact ⟨hmem, by simp [hadmin]⟩
    obtain ⟨a, ha⟩ := List.length_eq_one.mp hone
    have hua : u = a := by
      rw [ha] at humem
      simpa using humem
    have hcount : countOtherAdmins st.users t = 0 := by
      unfold countOtherAdmins
      rw [List.length_eq_zero, List.filter_eq_nil_iff]
      intro v hv hpv
      simp only [Bool.and_eq_true, decide_eq_true_eq] at hpv
      obtain ⟨hvrole, hvne⟩ := hpv
      have hv2 : v ∈ st.users.filter (fun w => w.role = "admin") :=
        List.mem_filter.mpr ⟨hv, by simp [hvrole]⟩
      rw [ha] at hv2
      have hv_eq : v = a := by simpa using hv2
      rw [hv_eq, ← hua] at hvne
      exact hvne hid
    simp only [deleteUserEp, hfind]
    rw [if_pos (by simp [hadmin, hcount])]
  · intro htwo
    -- among ≥ 2 admins with pairwise-distinct ids, one has id ≠ t
    have hpairf : (st.users.filter (fun v => v.role = "admin")).Pairwise
        (fun a b => a.id ≠ b.id) := hdist.sublist (List.filter_sublist _)
    obtain ⟨v, hvmem, hvne⟩ :
        ∃ v ∈ st.users.filter (fun w => w.role = "admin"), v.id ≠ t := by
      rcases hfl : st.users.filter (fun w => w.role = "admin") with _ | ⟨a, _ | ⟨b, l⟩⟩
      · rw [hfl] at htwo; simp at htwo
      · rw [hfl] at htwo; simp at htwo
      · rw [hfl] at hpairf
        have hab : a.id ≠ b.id := (List.pairwise_cons.mp hpairf).1 b (by simp)
        by_cases hat : a.id = t
        · exact ⟨b, by rw [hfl]; simp, by rw [← hat]; exact fun h => hab h.symm⟩
        · exact ⟨a, by rw [hfl]; simp, hat⟩
    have hvrole : v.role = "admin" := by
      have := (List.mem_filter.mp hvmem).2
      simpa using this
    have hvusers : v ∈ st.users := (List.mem_filter.mp hvmem).1
    have hcount : countOtherAdmins st.users t ≠ 0 := by
      unfold countOtherAdmins
      rw [Ne, List.length_eq_zero, List.filter_eq_nil_iff]
      push_neg
      exact ⟨v, hvusers, by simp [hvrole, hvne]⟩
    simp only [deleteUserEp, hfind]
    rw [if_neg (by simp [hcount])]
    refine ⟨rfl, v, ?_, hvrole⟩
    simp only [List.mem_filter]
    exact ⟨hvusers, by simp [hvne]⟩

/-- The sole admin row of the one-admin witness state. -/
def soleAdmin : User :=
  { id := "a1", username := "admin", password := "Admin@12345",
    role := "admin", canEditMealie := 1, requirePasswordChange := 0 }

/-- A second admin row for the two-admin witness state. -/
def secondAdmin : User :=
  { id := "a2", username := "admin2", password := "Admin@12345",
    role := "admin", canEditMealie := 1, requirePasswordChange := 0 }

/-- A state with exactly one admin. -/
def oneAdminState : St :=
  { users := [soleAdmin], recipes := [], collections := [], mealPlan := [],
    settings := [] }

/-- A state with two admins. -/
def twoAdminState : St :=
  { users := [soleAdmin, secondAdmin], recipes := [], collections := [],
    mealPlan := [], settings := [] }

/-- Witness for `last_admin_protection`: deleting the sole admin of
`oneAdminState` is refused; deleting one of the two admins of `twoAdminState`
succeeds. -/
theorem last_admin_protection_witness :
    (deleteUserEp oneAdminState "a1" =
      (.err 400 "Cannot delete the last admin", oneAdminState)) ∧
    ((deleteUserEp twoAdminState "a1").1 = Resp.ok) :=
  ⟨(last_admin_protection oneAdminState "a1" soleAdmin (by decide) (by decide)
      (by decide)).1 (by decide),
   ((last_admin_protection twoAdminState "a1" soleAdmin (by decide) (by decide)
      (by decide)).2 (by decide)).1⟩

/-! ## C3 — the forced-password-change gate -/

/-- The three request paths the `checkPasswordChange` middleware exempts. -/
def exemptPaths : List String :=
  ["/api/auth/change-password", "/api/auth/me", "/api/auth/logout"]

/-- C3: for a user whose forced-change flag is set, the gate — which runs on
every request regardless of role or ownership — rejects every path outside the
three exempt operations with the distinct 403 "Password change required"
error, and passes the three exempt operations through; and after a successful
password change (which clears the flag in the same update), the gate passes
every path for that user. -/
theorem forced_change_gate (users : List User) (uid : String) (u : User)
    (hfind : findUser users uid = some u) (hflag : u.requirePasswordChange = 1) :
    (∀ path, stripSlash path ∉ exemptPaths →
      checkPasswordChange users (some uid) path =
        some (.err 403 "Password change required")) ∧
    (∀ path, stripSlash path ∈ exemptPaths →
      checkPasswordChange users (some uid) path = none) ∧
    (∀ (st : St) (s : Sess) (pw : String), st.users = users → s.userId = uid →
      validatePassword st.settings pw = none →
      (changePasswordEp st s pw).1 = Resp.ok ∧
      ∀ path,
        checkPasswordChange (changePasswordEp st s pw).2.users (some uid) path =
          none) := by
  refine ⟨?_, ?_, ?_⟩
  · intro path hpath
    simp only [exemptPaths, List.mem_cons, List.not_mem_nil, or_false,
      not_or] at hpath
    obtain ⟨h1, h2, h3⟩ := hpath
    simp [checkPasswordChange, hfind, hflag, h1, h2, h3]
  · intro path hpath
    simp only [exemptPaths, List.mem_cons, List.not_mem_nil, or_false] at hpath
    rcases hpath with h | h | h <;> simp [checkPasswordChange, hfind, h]
  · intro st s pw hst hs hval
    have hstate : (changePasswordEp st s pw).2.users = st.users.map (fun u =>
        if u.id = s.userId then { u with password := pw, requirePasswordChange := 0 }
        else u) := by
      simp [changePasswordEp, hval]
    refine ⟨by simp [changePasswordEp, hval], ?_⟩
    intro path
    rw [hstate]
    cases hf : findUser (st.users.map (fun u =>
        if u.id = s.userId then { u with password := pw, requirePasswordChange := 0 }
        else u)) uid with
    | none => simp [checkPasswordChange, hf]
    | some v =>
      have hv : v.requirePasswordChange = 0 := by
        have hvmem := List.mem_of_find?_eq_some hf
        have hvid : v.id = uid := by simpa using List.find?_some hf
        obtain ⟨orig, horig, hveq⟩ := List.mem_map.mp hvmem
        by_cases ho : orig.id = s.userId
        · rw [← hveq]
          simp [ho]
        · exfalso
          rw [← hveq] at hvid
          rw [if_neg ho] at hvid
          exact ho (by rw [hvid, hs])
      simp [checkPasswordChange, hf, hv]

/-- Witness for `forced_change_gate` on a concrete state: the recipes path is
rejected while the flag is set, the identity-check path passes, and after a
valid password change all paths pass. -/
theorem forced_change_gate_witness :
    checkPasswordChange
      [{ id := "u1", username := "pat", password := "Admin@12345",
         role := "user", canEditMealie := 0, requirePasswordChange := 1 }]
      (some "u1") "/api/recipes" =
      some (.err 403 "Password change required") ∧
    checkPasswordChange
      [{ id := "u1", username := "pat", password := "Admin@12345",
         role := "user", canEditMealie := 0, requirePasswordChange := 1 }]
      (some "u1") "/api/auth/me" = none := by
  have h := forced_change_gate
    [{ id := "u1", username := "pat", password := "Admin@12345",
       role := "user", canEditMealie := 0, requirePasswordChange := 1 }]
    "u1"
    { id := "u1", username := "pat", password := "Admin@12345",
      role := "user", canEditMealie := 0, requirePasswordChange := 1 }
    (by decide) (by decide)
  exact ⟨h.1 "/api/recipes" (by decide), h.2.1 "/api/auth/me" (by decide)⟩

/-! ## C8 — the minimum-length floor -/

/-- An admin-owned state with the seeded password policy. -/
def seededAdminState : St :=
  { users := [soleAdmin], recipes := [], collections := [], mealPlan := [],
    settings := defaultPolicy }

/-- The admin's session. -/
def adminSess : Sess := { userId := "a1", username := "admin", role := "admin" }

/-- A settings body carrying an unparseable minimum length. -/
def malformedBody : SettingsBody :=
  { mealieUrl := none, mealieToken := none, passwordMinLength := some "abc",
    passwordRequireSpecial := none, passwordRequireNumber := none }

/-- C8 counterexample: the admin stores `passwordMinLength = "abc"` — the
write-time floor check `parseInt("abc") < 10` is false (`NaN` comparisons are
false) so the write succeeds — and afterwards `validatePassword` accepts the
three-character password `"a1!"`: the floor of 10 does not hold at validation
time for a malformed setting. -/
theorem floor_bypass_counterexample :
    (settingsPostEp seededAdminState adminSess malformedBody).1 = Resp.ok ∧
    settingGet (settingsPostEp seededAdminState adminSess malformedBody).2.settings
      "passwordMinLength" = some "abc" ∧
    validatePassword
      (settingsPostEp seededAdminState adminSess malformedBody).2.settings
      "a1!" = none ∧
    ("a1!" : String).length < 10 := by
  decide

/-- C8 (amended): the floor is enforced only on values that parse — when the
stored minimum parses to a number `n`, shorter passwords are rejected; when
the setting is absent the default of 10 applies; the settings write rejects a
value parsing below 10; but a stored value that does not parse at all makes
the minimum `NaN` and the length rule never fires (any password with a digit
and a special character passes), so no floor of 10 holds at validation time
for malformed settings. -/
theorem password_floor_at_validation :
    (∀ (s : Settings) (pw : String) (n : Int), minLengthOf s = some n →
      (pw.length : Int) < n → validatePassword s pw = some (lengthMsg (some n))) ∧
    (∀ (s : Settings) (pw : String), settingGet s "passwordMinLength" = none →
      pw.length < 10 → validatePassword s pw = some (lengthMsg (some 10))) ∧
    (∀ (st : St) (sess : Sess) (u : User) (body : SettingsBody),
      findUser st.users sess.userId = some u → u.role = "admin" →
      minLengthBelowFloor body.passwordMinLength = true →
      settingsPostEp st sess body =
        (.err 400 "Minimum password length cannot be less than 10", st)) ∧
    (∀ (s : Settings) (pw : String), minLengthOf s = none →
      hasDigit pw = true → hasSpecial pw = true →
      validatePassword s pw = none) := by
  have hmain : ∀ (s : Settings) (pw : String) (n : Int), minLengthOf s = some n →
      (pw.length : Int) < n → validatePassword s pw = some (lengthMsg (some n)) := by
    intro s pw n hmin hlt
    have hshort : tooShort (some n) pw.length = true := by
      simp only [tooShort, decide_eq_true_eq]
      exact hlt
    simp only [validatePassword, hmin, hshort, if_pos]
  refine ⟨hmain, ?_, ?_, ?_⟩
  · intro s pw habsent hlt
    have hmin : minLengthOf s = some 10 := by
      have hraw : rawMinLength s = "10" := by
        simp [rawMinLength, habsent]
      rw [minLengthOf, hraw]
      decide
    exact hmain s pw 10 hmin (by exact_mod_cast hlt)
  · intro st sess u body hfind hrole hfloor
    simp only [settingsPostEp, hfind]
    rw [if_neg (by simp [hrole]), if_pos hfloor]
  · intro s pw hnan hdig hspec
    simp [validatePassword, hnan, tooShort, hdig, hspec]

/-- Witness for `password_floor_at_validation`: a parsed minimum of 12 rejects
an 11-character password; an absent setting rejects a 9-character one; the
write of "6" is refused; a NaN minimum accepts "a1!". -/
theorem password_floor_at_validation_witness :
    validatePassword [("passwordMinLength", "12")] "elevenchars" =
      some (lengthMsg (some 12)) ∧
    validatePassword [] "ninechars" = some (lengthMsg (some 10)) ∧
    settingsPostEp seededAdminState adminSess
      { mealieUrl := none, mealieToken := none, passwordMinLength := some "6",
        passwordRequireSpecial := none, passwordRequireNumber := none } =
      (.err 400 "Minimum password length cannot be less than 10",
        seededAdminState) ∧
    validatePassword [("passwordMinLength", "abc")] "a1!" = none :=
  ⟨password_floor_at_validation.1 [("passwordMinLength", "12")] "elevenchars" 12
      (by decide) (by decide),
   password_floor_at_validation.2.1 [] "ninechars" (by decide) (by decide),
   password_floor_at_validation.2.2.1 seededAdminState adminSess soleAdmin _
      (by decide) (by decide) (by decide),
   password_floor_at_validation.2.2.2 [("passwordMinLength", "abc")] "a1!"
      (by decide) (by decide) (by decide)⟩

/-! ## C10 — share-token overwrite -/

/-- `find?` on an id commutes with a map that preserves ids. -/
theorem find?_map_of_id_preserved (l : List Recipe) (rid : String)
    (f : Recipe → Recipe) (hf : ∀ q, (f q).id = q.id) :
    (l.map f).find? (fun q => q.id = rid) =
      (l.find? (fun q => q.id = rid)).map f := by
  induction l with
  | nil => rfl
  | cons a l ih =>
    by_cases ha : a.id = rid
    · simp [List.find?_cons, hf, ha]
    · simp [List.find?_cons, hf, ha, ih]

/-- The per-row update of `shareRecipeEp` preserves ids. -/
theorem shareUpd_id (rid tok : String) (q : Recipe) :
    (shareUpd rid tok q).id = q.id := by
  by_cases h : q.id = rid <;> simp [shareUpd, h]

/-- C10: issuing a share token a second time overwrites the stored token —
after sharing recipe `rid` with token `t1` and then again with token `t2`,
the public lookup of `t1` finds nothing (no other recipe held `t1`), and the
lookup of `t2` finds exactly recipe `rid`: only the most recently issued token
grants unauthenticated read access. -/
theorem share_token_overwrite (st : St) (s : Sess) (rid t1 t2 : String)
    (r : Recipe)
    (hfind : st.recipes.find? (fun q => q.id = rid) = some r)
    (hown : s.role = "admin" ∨ r.userId = s.userId)
    (hne : t1 ≠ t2)
    (hothers1 : ∀ q ∈ st.recipes, q.id ≠ rid → q.publicToken ≠ some t1)
    (hfresh2 : ∀ q ∈ st.recipes, q.publicToken ≠ some t2) :
    (shareRecipeEp st s rid t1).1 = Resp.ok ∧
    (shareRecipeEp (shareRecipeEp st s rid t1).2 s rid t2).1 = Resp.ok ∧
    publicLookup (shareRecipeEp (shareRecipeEp st s rid t1).2 s rid t2).2 t1 =
      none ∧
    (publicLookup (shareRecipeEp (shareRecipeEp st s rid t1).2 s rid t2).2
        t2).map (·.id) = some rid := by
  have hguard : (!(s.role = "admin") && !(r.userId = s.userId)) = false := by
    rcases hown with h | h <;> simp [h]
  have hrid : r.id = rid := by simpa using List.find?_some hfind
  have hrmem : r ∈ st.recipes := List.mem_of_find?_eq_some hfind
  have hst1 : shareRecipeEp st s rid t1 =
      (Resp.ok, { st with recipes := st.recipes.map (shareUpd rid t1) }) := by
    simp only [shareRecipeEp, hfind, hguard]
    simp
  have hupd1 : shareUpd rid t1 r = { r with publicToken := some t1 } := by
    simp [shareUpd, hrid]
  have hguard2 :
      (!(s.role = "admin") && !((shareUpd rid t1 r).userId = s.userId)) =
        false := by
    rw [hupd1]
    rcases hown with h | h <;> simp [h]
  have hf1 : (st.recipes.map (shareUpd rid t1)).find? (fun q => q.id = rid) =
      some (shareUpd rid t1 r) := by
    rw [find?_map_of_id_preserved _ _ _ (shareUpd_id rid t1), hfind]
    rfl
  have hst2 : shareRecipeEp (shareRecipeEp st s rid t1).2 s rid t2 =
      (Resp.ok, { st with recipes :=
        (st.recipes.map (shareUpd rid t1)).map (shareUpd rid t2) }) := by
    rw [hst1]
    simp only [shareRecipeEp, hf1, hguard2]
    simp
  refine ⟨by rw [hst1], by rw [hst2], ?_, ?_⟩
  · rw [hst2]
    simp only [publicLookup]
    rw [List.find?_eq_none]
    intro q hq
    simp only [List.mem_map] at hq
    obtain ⟨o, ho, hoq⟩ := hq
    obtain ⟨o, ho, rfl⟩ := ho
    by_cases hid : o.id = rid
    · rw [← hoq]
      simp [shareUpd, hid, hne.symm]
    · rw [← hoq]
      have hid' : (shareUpd rid t1 o).id = rid → False := by
        rw [shareUpd_id]
        exact hid
      simp only [shareUpd, if_neg hid, if_neg hid']
      simpa using hothers1 o ho hid
  · rw [hst2]
    simp only [publicLookup]
    have hmem2 : shareUpd rid t2 (shareUpd rid t1 r) ∈
        (st.recipes.map (shareUpd rid t1)).map (shareUpd rid t2) :=
      List.mem_map.mpr ⟨shareUpd rid t1 r, List.mem_map.mpr ⟨r, hrmem, rfl⟩, rfl⟩
    have htok2 : (shareUpd rid t2 (shareUpd rid t1 r)).publicToken = some t2 := by
      simp [shareUpd, hrid]
    cases hl : ((st.recipes.map (shareUpd rid t1)).map (shareUpd rid t2)).find?
        (fun q => q.publicToken = some t2) with
    | none =>
      exfalso
      rw [List.find?_eq_none] at hl
      exact hl _ hmem2 (by simp [htok2])
    | some q =>
      have hqmem := List.mem_of_find?_eq_some hl
      have hqtok : q.publicToken = some t2 := by
        simpa using List.find?_some hl
      simp only [List.mem_map] at hqmem
      obtain ⟨o, ho, hoq⟩ := hqmem
      obtain ⟨o, ho, rfl⟩ := ho
      have hqid : q.id = rid := by
        by_cases hid : o.id = rid
        · rw [← hoq, shareUpd_id, shareUpd_id]
          exact hid
        · exfalso
          have hid' : (shareUpd rid t1 o).id = rid → False := by
            rw [shareUpd_id]
            exact hid
          rw [← hoq] at hqtok
          simp only [shareUpd, if_neg hid, if_neg hid'] at hqtok
          exact hfresh2 o ho hqtok
      simp [hqid]

/-- The recipe row of the sharing witness state. -/
def cakeRecipe : Recipe :=
  { id := "r1", userId := "a1", name := "Cake", collectionId := none,
    publicToken := none }

/-- A one-recipe state for the sharing witness. -/
def shareState : St :=
  { users := [soleAdmin], recipes := [cakeRecipe], collections := [],
    mealPlan := [], settings := defaultPolicy }

/-- Witness for `share_token_overwrite`: share recipe `r1` with token "tok1",
then with "tok2"; "tok1" no longer resolves, "tok2" resolves to `r1`. -/
theorem share_token_overwrite_witness :
    publicLookup
      (shareRecipeEp (shareRecipeEp shareState adminSess "r1" "tok1").2
        adminSess "r1" "tok2").2 "tok1" = none ∧
    (publicLookup
      (shareRecipeEp (shareRecipeEp shareState adminSess "r1" "tok1").2
        adminSess "r1" "tok2").2 "tok2").map (·.id) = some "r1" := by
  have h := share_token_overwrite shareState adminSess "r1" "tok1" "tok2"
    cakeRecipe (by simp [shareState, cakeRecipe]) (Or.inl rfl) (by decide)
    (by simp [shareState, cakeRecipe]) (by simp [shareState, cakeRecipe])
  exact ⟨h.2.2.1, h.2.2.2⟩

/-! ## C1 — correctness of the INTEGER→TEXT primary-key migration -/

theorem migrateUsers_length (us : List DbUser) (c : Nat) :
    (migrateUsers us c).1.length = us.length := by
  induction us generalizing c with
  | nil => rfl
  | cons u us ih => simp [migrateUsers, ih]

theorem migrateUsers_getElem? (us : List DbUser) (c j : Nat) :
    (migrateUsers us c).1[j]? = (us[j]?).map (migUserRow (uuid (c + j))) := by
  induction us generalizing c j with
  | nil => simp [migrateUsers]
  | cons u us ih =>
    cases j with
    | zero => simp [migrateUsers]
    | succ j =>
      have harith : c + (j + 1) = c + 1 + j := by omega
      simp only [migrateUsers, List.getElem?_cons_succ, harith]
      exact ih (c + 1) j

theorem lookupMap_cons (e : SqlVal × String) (m : List (SqlVal × String))
    (k : SqlVal) :
    lookupMap (e :: m) k =
      if jsEq e.1 k then some e.2 else lookupMap m k := by
  by_cases h : jsEq e.1 k
  · simp only [lookupMap,
      @List.find?_cons_of_pos _ (fun q => jsEq q.1 k) e m h, if_pos h,
      Option.map_some']
  · simp only [lookupMap,
      @List.find?_cons_of_neg _ (fun q => jsEq q.1 k) e m h, if_neg h]

theorem migrateUsers_lookup (us : List DbUser) (c j : Nat) (u0 : DbUser)
    (hdist : us.Pairwise (fun a b => a.id ≠ b.id))
    (hj : us[j]? = some u0) :
    lookupMap (migrateUsers us c).2.1 u0.id = some (uuid (c + j)) := by
  induction us generalizing c j with
  | nil => simp at hj
  | cons u us ih =>
    cases j with
    | zero =>
      simp only [List.getElem?_cons_zero, Option.some.injEq] at hj
      subst hj
      simp only [migrateUsers, lookupMap_cons]
      rw [if_pos (by simp [jsEq]), Nat.add_zero]
    | succ j =>
      simp only [List.getElem?_cons_succ] at hj
      have hu0mem : u0 ∈ us := by
        obtain ⟨h, he⟩ := List.getElem?_eq_some.mp hj
        exact he ▸ List.getElem_mem h
      have hne : u.id ≠ u0.id := (List.pairwise_cons.mp hdist).1 u0 hu0mem
      have harith : c + (j + 1) = c + 1 + j := by omega
      simp only [migrateUsers, lookupMap_cons, harith]
      rw [if_neg (by simp [jsEq, hne])]
      exact ih (c + 1) j (List.pairwise_cons.mp hdist).2 hj

theorem migrateUsers_pairwise (us : List DbUser) (c : Nat) :
    (migrateUsers us c).1.Pairwise (fun a b => a.id ≠ b.id) := by
  rw [List.pairwise_iff_getElem]
  intro i j hi hj hij
  have hilen : i < us.length := by rwa [migrateUsers_length] at hi
  have hjlen : j < us.length := by rwa [migrateUsers_length] at hj
  have hgi := migrateUsers_getElem? us c i
  have hgj := migrateUsers_getElem? us c j
  rw [List.getElem?_eq_getElem hi, List.getElem?_eq_getElem hilen] at hgi
  rw [List.getElem?_eq_getElem hj, List.getElem?_eq_getElem hjlen] at hgj
  simp only [Option.map_some', Option.some.injEq] at hgi hgj
  have hidi : ((migrateUsers us c).1[i]).id = .text (uuid (c + i)) := by
    rw [hgi, migUserRow]
  have hidj : ((migrateUsers us c).1[j]).id = .text (uuid (c + j)) := by
    rw [hgj, migUserRow]
  rw [hidi, hidj]
  intro hcontra
  have htext : uuid (c + i) = uuid (c + j) := by
    injection hcontra
  have := uuid_injective htext
  omega

theorem migrateRecipes_length (rs : List DbRecipe) (m : List (SqlVal × String))
    (c : Nat) : (migrateRecipes rs m c).1.length = rs.length := by
  induction rs generalizing c with
  | nil => rfl
  | cons r rs ih => simp [migrateRecipes, ih]

theorem migrateRecipes_getElem? (rs : List DbRecipe)
    (m : List (SqlVal × String)) (c i : Nat) :
    (migrateRecipes rs m c).1[i]? =
      (rs[i]?).map (fun r => migRecipeRow (uuid (c + i)) (mapOwner m r.userId) r) := by
  induction rs generalizing c i with
  | nil => simp [migrateRecipes]
  | cons r rs ih =>
    cases i with
    | zero => simp [migrateRecipes]
    | succ i =>
      have harith : c + (i + 1) = c + 1 + i := by omega
      simp only [migrateRecipes, List.getElem?_cons_succ, harith]
      exact ih (c + 1) i

/-- C1: running the INTEGER→TEXT primary-key migration on a legacy database
(users id column declared INTEGER, old user ids pairwise distinct as the
legacy `INTEGER PRIMARY KEY` guarantees) preserves the user and recipe row
counts, gives the migrated users pairwise-distinct identifiers, and rewrites
every migrated recipe's owner reference to the new identifier of the user
that owned it before (position for position). -/
theorem legacy_id_migration (db : DB) (c : Nat)
    (hpresent : db.usersPresent = true)
    (hlegacy : db.usersIdType = "INTEGER")
    (hdist : db.usersRows.Pairwise (fun a b => a.id ≠ b.id)) :
    ((migrateStep db c).1.usersRows.length = db.usersRows.length) ∧
    ((migrateStep db c).1.recipesRows.length = db.recipesRows.length) ∧
    ((migrateStep db c).1.usersRows.Pairwise (fun a b => a.id ≠ b.id)) ∧
    (∀ (i j : Nat) (r0 : DbRecipe) (u0 : DbUser),
      db.recipesRows[i]? = some r0 → db.usersRows[j]? = some u0 →
      r0.userId = u0.id →
      ∃ nr nu, (migrateStep db c).1.recipesRows[i]? = some nr ∧
        (migrateStep db c).1.usersRows[j]? = some nu ∧
        nr.userId = nu.id) := by
  have hcond : (db.usersPresent && jsToUpper db.usersIdType = "INTEGER") = true := by
    rw [hpresent, hlegacy]
    decide
  have hstep : (migrateStep db c).1 =
      { db with
          usersIdType := "TEXT"
          usersCols := targetUsersCols
          usersRows := (migrateUsers db.usersRows c).1
          recipesCols := baseRecipesCols
          recipesRows := (migrateRecipes db.recipesRows
            (migrateUsers db.usersRows c).2.1
            (migrateUsers db.usersRows c).2.2).1 } := by
    rw [migrateStep, if_pos hcond]
  rw [hstep]
  refine ⟨migrateUsers_length _ _, migrateRecipes_length _ _ _, ?_, ?_⟩
  · exact migrateUsers_pairwise _ _
  · intro i j r0 u0 hri huj hrown
    have hlk : lookupMap (migrateUsers db.usersRows c).2.1 u0.id =
        some (uuid (c + j)) :=
      migrateUsers_lookup db.usersRows c j u0 hdist huj
    refine ⟨migRecipeRow (uuid ((migrateUsers db.usersRows c).2.2 + i))
        (.text (uuid (c + j))) r0,
      migUserRow (uuid (c + j)) u0, ?_, ?_, rfl⟩
    · rw [migrateRecipes_getElem?, hri]
      simp only [Option.map_some', Option.some.injEq]
      rw [mapOwner, hrown, hlk]
    · rw [migrateUsers_getElem?, huj]
      simp

/-- Legacy user row: Alice, integer id 1. -/
def legacyAlice : DbUser where
  id := .int 1
  username := "alice"
  password := "pw1"
  role := "user"
  canEditMealie := 0
  requirePasswordChange := 0
  createdAt := "t1"

/-- Legacy user row: Bob, integer id 2. -/
def legacyBob : DbUser where
  id := .int 2
  username := "bob"
  password := "pw2"
  role := "admin"
  canEditMealie := 1
  requirePasswordChange := 0
  createdAt := "t2"

/-- Legacy recipe row: Bob's cake, integer ids. -/
def legacyCake : DbRecipe where
  id := .int 7
  userId := .int 2
  name := "Cake"
  description := ""
  ingredients := "[]"
  instructions := "[]"
  imageData := ""
  mimeType := ""
  createdAt := "t3"

/-- A legacy two-user, one-recipe database: integer ids, Bob owns the cake
recipe. -/
def legacyDb : DB where
  usersPresent := true
  usersIdType := "INTEGER"
  usersCols := ["id", "username", "password", "role", "can_edit_mealie",
    "created_at"]
  usersRows := [legacyAlice, legacyBob]
  settingsPresent := false
  settingsRows := []
  recipesPresent := true
  recipesCols := baseRecipesCols
  recipesRows := [legacyCake]
  auditPresent := false
  auditCount := 0
  collectionsPresent := false
  collectionsCount := 0
  mealPlanPresent := false
  mealPlanCount := 0
  recipeImagesPresent := false
  recipeImagesCount := 0

/-- Witness for `legacy_id_migration` on `legacyDb`: counts are preserved and
the migrated recipe's owner reference equals Bob's migrated identifier. -/
theorem legacy_id_migration_witness :
    (migrateStep legacyDb 0).1.usersRows.length = 2 ∧
    (migrateStep legacyDb 0).1.recipesRows.length = 1 ∧
    (∃ nr nu, (migrateStep legacyDb 0).1.recipesRows[0]? = some nr ∧
      (migrateStep legacyDb 0).1.usersRows[1]? = some nu ∧
      nr.userId = nu.id) := by
  have h := legacy_id_migration legacyDb 0 rfl rfl (by decide)
  refine ⟨h.1, h.2.1, ?_⟩
  exact h.2.2.2 0 1 legacyCake legacyBob rfl rfl rfl

/-! ## C2 — idempotence of the Schema Reconciler

The reconciler is NOT idempotent on every state it produces: a run that
performs the INTEGER→TEXT migration recreates `recipes` with only the base
columns, dropping the additive columns added moments earlier, and the next
run re-adds them.  On every state produced by a run in which the migration
did not fire (equivalently, whose users id type is not INTEGER — true of
every state from the second run on), the reconciler is the identity. -/

/-- The candidate recipe id is never a well-formed generated identifier. -/
theorem isBadId_uuid (n : Nat) : isBadId (.text (uuid n)) = false := by
  simp only [isBadId, uuid_length, decide_eq_false_iff_not]
  omega

/-- `sqlEq` never matches against NULL on the right. -/
theorem sqlEq_null_right (v : SqlVal) : sqlEq v .null = false := by
  cases v <;> rfl

/-- The fixed-point characterisation of a reconciled database: every table
present, all additive columns in place, a non-INTEGER users id type, every
user id a well-formed text identifier or NULL, an admin-role user present,
no historical default password on the user named "admin", and all three
policy keys seeded. -/
def ReconciledOk (db : DB) : Prop :=
  db.usersPresent = true ∧
  db.settingsPresent = true ∧
  db.recipesPresent = true ∧
  db.auditPresent = true ∧
  db.collectionsPresent = true ∧
  db.mealPlanPresent = true ∧
  db.recipeImagesPresent = true ∧
  "tags" ∈ db.recipesCols ∧
  "collection_id" ∈ db.recipesCols ∧
  "nutrition_info" ∈ db.recipesCols ∧
  "public_token" ∈ db.recipesCols ∧
  "servings" ∈ db.recipesCols ∧
  jsToUpper db.usersIdType ≠ "INTEGER" ∧
  "require_password_change" ∈ db.usersCols ∧
  (∀ u ∈ db.usersRows, isBadId u.id = true → u.id = SqlVal.null) ∧
  db.usersRows.any (fun u => u.role = "admin") = true ∧
  (∀ au, db.usersRows.find? (fun u => u.username = "admin") = some au →
    au.password ≠ "admin123" ∧ au.password ≠ "admin") ∧
  db.settingsRows.any (fun p => p.1 = "passwordMinLength") = true ∧
  db.settingsRows.any (fun p => p.1 = "passwordRequireSpecial") = true ∧
  db.settingsRows.any (fun p => p.1 = "passwordRequireNumber") = true

instance (db : DB) : Decidable (ReconciledOk db) := by
  unfold ReconciledOk
  infer_instance

theorem createIfAbsent_id (db : DB) (h1 : db.usersPresent = true)
    (h2 : db.settingsPresent = true) (h3 : db.recipesPresent = true)
    (h4 : db.auditPresent = true) (h5 : db.collectionsPresent = true)
    (h6 : db.mealPlanPresent = true) (h7 : db.recipeImagesPresent = true) :
    createIfAbsent db = db := by
  cases db
  simp_all [createIfAbsent]

theorem addColumn_mem (cols : List String) (c : String) (h : c ∈ cols) :
    addColumn cols c = cols := by
  rw [addColumn, if_pos h]

theorem addRecipeColumns_id (db : DB)
    (h1 : "tags" ∈ db.recipesCols) (h2 : "collection_id" ∈ db.recipesCols)
    (h3 : "nutrition_info" ∈ db.recipesCols)
    (h4 : "public_token" ∈ db.recipesCols)
    (h5 : "servings" ∈ db.recipesCols) :
    addRecipeColumns db = db := by
  rw [addRecipeColumns, addColumn_mem _ _ h1, addColumn_mem _ _ h2,
    addColumn_mem _ _ h3, addColumn_mem _ _ h4, addColumn_mem _ _ h5]

theorem migrateStep_skip (db : DB) (c : Nat)
    (h : (db.usersPresent && jsToUpper db.usersIdType = "INTEGER") = false) :
    migrateStep db c = (db, c) := by
  rw [migrateStep, if_neg (by simp [h])]

theorem addPwChangeColumn_id (db : DB)
    (h : "require_password_change" ∈ db.usersCols) :
    addPwChangeColumn db = db := by
  rw [addPwChangeColumn, addColumn_mem _ _ h]

theorem map_backfillUserRow_null (ur : List DbUser) (nid : String) :
    ur.map (backfillUserRow .null nid) = ur := by
  induction ur with
  | nil => rfl
  | cons u ur ih =>
    simp only [List.map_cons, ih, backfillUserRow, sqlEq_null_right,
      Bool.false_eq_true, if_neg, List.cons.injEq, and_true]
    split
    · simp_all
    · rfl

theorem map_backfillRecipeRow_null (rr : List DbRecipe) (nid : String) :
    rr.map (backfillRecipeRow .null nid) = rr := by
  induction rr with
  | nil => rfl
  | cons r rr ih =>
    simp only [List.map_cons, ih, backfillRecipeRow, sqlEq_null_right,
      Bool.false_eq_true, if_neg, List.cons.injEq, and_true]
    split
    · simp_all
    · rfl

theorem backfillLoop_null (bs : List SqlVal) (ur : List DbUser)
    (rr : List DbRecipe) (c : Nat) (hbs : ∀ b ∈ bs, b = SqlVal.null) :
    (backfillLoop bs ur rr c).1 = ur ∧ (backfillLoop bs ur rr c).2.1 = rr := by
  induction bs generalizing c with
  | nil => exact ⟨rfl, rfl⟩
  | cons b bs ih =>
    have hb : b = SqlVal.null := hbs b (by simp)
    subst hb
    simp only [backfillLoop, map_backfillUserRow_null, map_backfillRecipeRow_null]
    exact ih (c + 1) (fun b hb => hbs b (by simp [hb]))

theorem backfillStep_id (db : DB) (c : Nat)
    (h : ∀ u ∈ db.usersRows, isBadId u.id = true → u.id = SqlVal.null) :
    (backfillStep db c).1 = db := by
  have hbs : ∀ b ∈ (db.usersRows.filter (fun u => isBadId u.id)).map (·.id),
      b = SqlVal.null := by
    intro b hb
    obtain ⟨u, hu, hub⟩ := List.mem_map.mp hb
    have := List.mem_filter.mp hu
    exact hub ▸ h u this.1 this.2
  have hl := backfillLoop_null _ db.usersRows db.recipesRows c hbs
  rw [backfillStep]
  simp only [hl.1, hl.2]

theorem insertOrIgnore_present (s : Settings) (k v : String)
    (h : s.any (fun p => p.1 = k) = true) : insertOrIgnore s k v = s := by
  rw [insertOrIgnore, if_pos h]

theorem seedSettings_id (db : DB)
    (h1 : db.settingsRows.any (fun p => p.1 = "passwordMinLength") = true)
    (h2 : db.settingsRows.any (fun p => p.1 = "passwordRequireSpecial") = true)
    (h3 : db.settingsRows.any (fun p => p.1 = "passwordRequireNumber") = true) :
    seedSettings db = db := by
  rw [seedSettings]
  simp only [insertOrIgnore_present _ _ _ h1]
  simp only [insertOrIgnore_present _ _ _ h2]
  simp only [insertOrIgnore_present _ _ _ h3]

theorem adminFix_id (rows : List DbUser) (c : Nat)
    (hany : rows.any (fun u => u.role = "admin") = true)
    (hpw : ∀ au, rows.find? (fun u => u.username = "admin") = some au →
      au.password ≠ "admin123" ∧ au.password ≠ "admin") :
    adminFix rows c = (rows, c) := by
  rw [adminFix, if_pos hany]
  cases hf : rows.find? (fun u => u.username = "admin") with
  | none => rfl
  | some au =>
    have hau := hpw au hf
    show (if (au.password = "admin123" || au.password = "admin") = true then
        (rows.map resetAdminPw, c)
      else (rows, c)) = (rows, c)
    rw [if_neg (by simp [hau.1, hau.2])]

/-- A reconciled database is a fixed point of the whole reconciliation
sequence (whatever the identifier supply). -/
theorem reconcile_fixed (db : DB) (c : Nat) (hok : ReconciledOk db) :
    (reconcile db c).1 = db := by
  obtain ⟨p1, p2, p3, p4, p5, p6, p7, c1, c2, c3, c4, c5, hty, hpwc, hids,
    hany, hpw, k1, k2, k3⟩ := hok
  have e1 : createIfAbsent db = db := createIfAbsent_id db p1 p2 p3 p4 p5 p6 p7
  have e2 : addRecipeColumns db = db := addRecipeColumns_id db c1 c2 c3 c4 c5
  have e3 : migrateStep db c = (db, c) :=
    migrateStep_skip db c (by simp [hty])
  have e4 : addPwChangeColumn db = db := addPwChangeColumn_id db hpwc
  have e5 : (backfillStep db c).1 = db := backfillStep_id db c hids
  have e6 : seedSettings db = db := seedSettings_id db k1 k2 k3
  have e7 : adminFix db.usersRows ((backfillStep db c).2) =
      (db.usersRows, (backfillStep db c).2) := adminFix_id _ _ hany hpw
  show (adminStep (seedSettings (backfillStep (addPwChangeColumn
      (migrateStep (addRecipeColumns (createIfAbsent db)) c).1)
      (migrateStep (addRecipeColumns (createIfAbsent db)) c).2).1)
      (backfillStep (addPwChangeColumn
        (migrateStep (addRecipeColumns (createIfAbsent db)) c).1)
        (migrateStep (addRecipeColumns (createIfAbsent db)) c).2).2).1 = db
  rw [e1, e2, e3, e4]
  show (adminStep (seedSettings (backfillStep db c).1)
      (backfillStep db c).2).1 = db
  rw [e5, e6]
  unfold adminStep
  rw [e7]

/-! Helper lemmas establishing `ReconciledOk` on the output of a run whose
INTEGER→TEXT migration did not fire. -/

theorem addColumn_mem_self (cols : List String) (c : String) :
    c ∈ addColumn cols c := by
  rw [addColumn]
  split
  · assumption
  · simp

theorem addColumn_mem_mono (cols : List String) (c x : String) (h : x ∈ cols) :
    x ∈ addColumn cols c := by
  rw [addColumn]
  split
  · exact h
  · simp [h]

theorem insertOrIgnore_key_self (s : Settings) (k v : String) :
    (insertOrIgnore s k v).any (fun p => p.1 = k) = true := by
  rw [insertOrIgnore]
  split
  · assumption
  · simp

theorem insertOrIgnore_key_mono (s : Settings) (k v q : String)
    (h : s.any (fun p => p.1 = q) = true) :
    (insertOrIgnore s k v).any (fun p => p.1 = q) = true := by
  rw [insertOrIgnore]
  split
  · exact h
  · simp only [List.any_append, h, Bool.true_or]

/-- `find?` commutes with a map that does not change the predicate's value. -/
theorem find?_map_congr {α : Type} (l : List α) (p : α → Bool) (g : α → α)
    (hg : ∀ x, p (g x) = p x) : (l.map g).find? p = (l.find? p).map g := by
  induction l with
  | nil => rfl
  | cons a l ih =>
    by_cases ha : p a = true
    · rw [List.map_cons, List.find?_cons_of_pos _ (by rw [hg]; exact ha),
        List.find?_cons_of_pos _ ha, Option.map_some']
    · rw [List.map_cons, List.find?_cons_of_neg _ (by rw [hg]; exact ha),
        List.find?_cons_of_neg _ ha, ih]

theorem backfillUserRow_role (b : SqlVal) (nid : String) (u : DbUser) :
    (backfillUserRow b nid u).role = u.role := by
  rw [backfillUserRow]
  split <;> rfl

theorem backfillUserRow_username (b : SqlVal) (nid : String) (u : DbUser) :
    (backfillUserRow b nid u).username = u.username := by
  rw [backfillUserRow]
  split <;> rfl

theorem resetAdminPw_role (u : DbUser) : (resetAdminPw u).role = u.role := by
  rw [resetAdminPw]
  split <;> rfl

theorem resetAdminPw_id (u : DbUser) : (resetAdminPw u).id = u.id := by
  rw [resetAdminPw]
  split <;> rfl

theorem resetAdminPw_username (u : DbUser) :
    (resetAdminPw u).username = u.username := by
  rw [resetAdminPw]
  split <;> rfl

theorem sqlEq_self_of_ne_null (v : SqlVal) (h : v ≠ .null) :
    sqlEq v v = true := by
  cases v <;> simp_all [sqlEq]

/-- After the backfill loop, every remaining ill-formed user id is NULL,
provided every ill-formed id was NULL or scheduled in the loop's work list. -/
theorem backfillLoop_good (bs : List SqlVal) (ur : List DbUser)
    (rr : List DbRecipe) (c : Nat)
    (h : ∀ u ∈ ur, isBadId u.id = true →
      u.id = SqlVal.null ∨ ∃ b ∈ bs, sqlEq u.id b = true) :
    ∀ u ∈ (backfillLoop bs ur rr c).1, isBadId u.id = true →
      u.id = SqlVal.null := by
  induction bs generalizing ur rr c with
  | nil =>
    intro u hu hbad
    rcases h u hu hbad with hnull | ⟨b, hb, _⟩
    · exact hnull
    · simp at hb
  | cons b bs ih =>
    refine ih _ _ (c + 1) ?_
    intro u' hu' hbad'
    obtain ⟨u, hu, huu⟩ := List.mem_map.mp hu'
    by_cases hsq : sqlEq u.id b = true
    · exfalso
      have : u' = { u with id := .text (uuid c) } := by
        rw [← huu, backfillUserRow, if_pos hsq]
      rw [this] at hbad'
      simp only [isBadId_uuid] at hbad'
      exact absurd hbad' (by simp)
    · have hue : u' = u := by
        rw [← huu, backfillUserRow, if_neg hsq]
      rw [hue] at hbad' ⊢
      rcases h u hu hbad' with hnull | ⟨b', hb', hsq'⟩
      · exact Or.inl hnull
      · rcases List.mem_cons.mp hb' with rfl | hmem
        · exact absurd hsq' hsq
        · exact Or.inr ⟨b', hmem, hsq'⟩

/-- The backfill loop does not change which roles appear. -/
theorem backfillLoop_any_admin (bs : List SqlVal) (ur : List DbUser)
    (rr : List DbRecipe) (c : Nat) :
    (backfillLoop bs ur rr c).1.any (fun u => u.role = "admin") =
      ur.any (fun u => u.role = "admin") := by
  induction bs generalizing ur rr c with
  | nil => rfl
  | cons b bs ih =>
    rw [backfillLoop, ih]
    rw [List.any_map]
    congr 1
    funext u
    simp [Function.comp, backfillUserRow_role]

/-- The backfill loop does not change which usernames appear. -/
theorem backfillLoop_no_admin_username (bs : List SqlVal) (ur : List DbUser)
    (rr : List DbRecipe) (c : Nat)
    (h : ∀ u ∈ ur, u.username ≠ "admin") :
    ∀ u ∈ (backfillLoop bs ur rr c).1, u.username ≠ "admin" := by
  induction bs generalizing ur rr c with
  | nil => exact h
  | cons b bs ih =>
    refine ih _ _ (c + 1) ?_
    intro u' hu'
    obtain ⟨u, hu, huu⟩ := List.mem_map.mp hu'
    rw [← huu, backfillUserRow_username]
    exact h u hu

/-- `adminFix` always leaves an admin-role user present. -/
theorem adminFix_any_admin (rows : List DbUser) (c : Nat) :
    (adminFix rows c).1.any (fun u => u.role = "admin") = true := by
  rw [adminFix]
  by_cases hany : rows.any (fun u => u.role = "admin") = true
  · rw [if_pos hany]
    cases hf : rows.find? (fun u => u.username = "admin") with
    | none => exact hany
    | some au =>
      show (if (au.password = "admin123" || au.password = "admin") = true then
          (rows.map resetAdminPw, c)
        else (rows, c)).1.any (fun u => u.role = "admin") = true
      split
      · rw [List.any_map]
        calc rows.any (fun u => (resetAdminPw u).role = "admin")
            = rows.any (fun u => u.role = "admin") := by
              congr 1
              funext u
              simp [resetAdminPw_role]
          _ = true := hany
      · exact hany
  · rw [if_neg hany]
    simp only [List.any_append, List.any_cons, List.any_nil]
    rw [show (bootstrapAdmin (uuid c)).role = "admin" from rfl]
    simp

/-- After `adminFix`, the user named "admin" (if any) no longer carries a
historical default password — provided the input either already had an
admin-role user or (as the UNIQUE username constraint forces whenever the
bootstrap insert can succeed) had no user named "admin" at all. -/
theorem adminFix_pw (rows : List DbUser) (c : Nat)
    (hsafe : rows.any (fun u => u.role = "admin") = true ∨
      ∀ u ∈ rows, u.username ≠ "admin") :
    ∀ au, (adminFix rows c).1.find? (fun u => u.username = "admin") = some au →
      au.password ≠ "admin123" ∧ au.password ≠ "admin" := by
  intro au hau
  rw [adminFix] at hau
  by_cases hany : rows.any (fun u => u.role = "admin") = true
  · rw [if_pos hany] at hau
    cases hf : rows.find? (fun u => u.username = "admin") with
    | none =>
      rw [hf] at hau
      simp only at hau
      rw [hau] at hf
      simp at hf
    | some au0 =>
      rw [hf] at hau
      by_cases hpw : (au0.password = "admin123" || au0.password = "admin") = true
      · rw [show (match some au0 with
            | some au =>
              if (au.password = "admin123" || au.password = "admin") = true then
                (rows.map resetAdminPw, c)
              else (rows, c)
            | none => (rows, c)) =
            (if (au0.password = "admin123" || au0.password = "admin") = true then
              (rows.map resetAdminPw, c) else (rows, c)) from rfl,
          if_pos hpw] at hau
        rw [find?_map_congr rows _ resetAdminPw
          (fun u => by rw [resetAdminPw_username]), hf] at hau
        simp only [Option.map_some', Option.some.injEq] at hau
        have hname : au0.username = "admin" := by
          simpa using List.find?_some hf
        rw [← hau, resetAdminPw, if_pos hname]
        exact ⟨by simp, by simp⟩
      · rw [show (match some au0 with
            | some au =>
              if (au.password = "admin123" || au.password = "admin") = true then
                (rows.map resetAdminPw, c)
              else (rows, c)
            | none => (rows, c)) =
            (if (au0.password = "admin123" || au0.password = "admin") = true then
              (rows.map resetAdminPw, c) else (rows, c)) from rfl,
          if_neg hpw] at hau
        replace hau : rows.find? (fun u => u.username = "admin") = some au := hau
        rw [hf] at hau
        simp only [Option.some.injEq] at hau
        simp only [Bool.or_eq_true, decide_eq_true_eq] at hpw
        push_neg at hpw
        rw [← hau]
        exact hpw
  · rw [if_neg hany] at hau
    rcases hsafe with hl | husers
    · exact absurd hl hany
    · have hnone : rows.find? (fun u => u.username = "admin") = none := by
        rw [List.find?_eq_none]
        intro u hu
        simpa using husers u hu
      rw [List.find?_append, hnone, Option.none_or] at hau
      have hbn : (bootstrapAdmin (uuid c)).username = "admin" := rfl
      rw [List.find?_cons_of_pos _ (by simp [hbn])] at hau
      simp only [Option.some.injEq] at hau
      rw [← hau]
      exact ⟨by simp [bootstrapAdmin], by simp [bootstrapAdmin]⟩

/-- `adminFix` keeps every user id well formed (or NULL). -/
theorem adminFix_ids (rows : List DbUser) (c : Nat)
    (h : ∀ u ∈ rows, isBadId u.id = true → u.id = SqlVal.null) :
    ∀ u ∈ (adminFix rows c).1, isBadId u.id = true → u.id = SqlVal.null := by
  intro u hu
  rw [adminFix] at hu
  by_cases hany : rows.any (fun v => v.role = "admin") = true
  · rw [if_pos hany] at hu
    cases hf : rows.find? (fun v => v.username = "admin") with
    | none =>
      rw [hf] at hu
      exact h u hu
    | some au =>
      rw [hf] at hu
      by_cases hpw : (au.password = "admin123" || au.password = "admin") = true
      · rw [show (match some au with
            | some au =>
              if (au.password = "admin123" || au.password = "admin") = true then
                (rows.map resetAdminPw, c)
              else (rows, c)
            | none => (rows, c)) =
            (if (au.password = "admin123" || au.password = "admin") = true then
              (rows.map resetAdminPw, c) else (rows, c)) from rfl,
          if_pos hpw] at hu
        obtain ⟨v, hv, hvu⟩ := List.mem_map.mp hu
        rw [← hvu, resetAdminPw_id]
        exact h v hv
      · rw [show (match some au with
            | some au =>
              if (au.password = "admin123" || au.password = "admin") = true then
                (rows.map resetAdminPw, c)
              else (rows, c)
            | none => (rows, c)) =
            (if (au.password = "admin123" || au.password = "admin") = true then
              (rows.map resetAdminPw, c) else (rows, c)) from rfl,
          if_neg hpw] at hu
        exact h u hu
  · rw [if_neg hany] at hu
    rcases List.mem_append.mp hu with hl | hr
    · exact h u hl
    · simp only [List.mem_singleton] at hr
      subst hr
      intro hbad
      rw [show (bootstrapAdmin (uuid c)).id = .text (uuid c) from rfl] at hbad ⊢
      rw [isBadId_uuid] at hbad
      exact absurd hbad (by simp)

/-- The reconciler's steps after the migration establish every reconciled-state
condition, given a state whose schema already carries the additive columns and
a non-INTEGER id type. -/
theorem tail_steps_ok (d : DB) (c : Nat)
    (hp1 : d.usersPresent = true) (hp2 : d.settingsPresent = true)
    (hp3 : d.recipesPresent = true) (hp4 : d.auditPresent = true)
    (hp5 : d.collectionsPresent = true) (hp6 : d.mealPlanPresent = true)
    (hp7 : d.recipeImagesPresent = true)
    (hc1 : "tags" ∈ d.recipesCols) (hc2 : "collection_id" ∈ d.recipesCols)
    (hc3 : "nutrition_info" ∈ d.recipesCols)
    (hc4 : "public_token" ∈ d.recipesCols) (hc5 : "servings" ∈ d.recipesCols)
    (hty : jsToUpper d.usersIdType ≠ "INTEGER")
    (hpwc : "require_password_change" ∈ d.usersCols)
    (hsafe : d.usersRows.any (fun u => u.role = "admin") = true ∨
      ∀ u ∈ d.usersRows, u.username ≠ "admin") :
    ReconciledOk
      (adminStep (seedSettings (backfillStep d c).1) (backfillStep d c).2).1 := by
  have hinit : ∀ u ∈ d.usersRows, isBadId u.id = true →
      u.id = SqlVal.null ∨
      ∃ b ∈ (d.usersRows.filter (fun u => isBadId u.id)).map (·.id),
        sqlEq u.id b = true := by
    intro u hu hbad
    by_cases hn : u.id = SqlVal.null
    · exact Or.inl hn
    · refine Or.inr ⟨u.id, ?_, sqlEq_self_of_ne_null _ hn⟩
      exact List.mem_map.mpr ⟨u, List.mem_filter.mpr ⟨hu, hbad⟩, rfl⟩
  have hgood := backfillLoop_good
    ((d.usersRows.filter (fun u => isBadId u.id)).map (·.id))
    d.usersRows d.recipesRows c hinit
  have hsafeR :
      (backfillLoop ((d.usersRows.filter (fun u => isBadId u.id)).map (·.id))
        d.usersRows d.recipesRows c).1.any (fun u => u.role = "admin") = true ∨
      ∀ u ∈ (backfillLoop
          ((d.usersRows.filter (fun u => isBadId u.id)).map (·.id))
          d.usersRows d.recipesRows c).1, u.username ≠ "admin" := by
    rcases hsafe with hl | hr
    · left
      rw [backfillLoop_any_admin]
      exact hl
    · right
      exact backfillLoop_no_admin_username _ _ _ _ hr
  refine ⟨hp1, hp2, hp3, hp4, hp5, hp6, hp7, hc1, hc2, hc3, hc4, hc5, hty,
    hpwc, ?_, ?_, ?_, ?_, ?_, ?_⟩
  · exact adminFix_ids _ _ hgood
  · exact adminFix_any_admin _ _
  · exact adminFix_pw _ _ hsafeR
  · exact insertOrIgnore_key_mono _ _ _ _ (insertOrIgnore_key_mono _ _ _ _
      (insertOrIgnore_key_self _ _ _))
  · exact insertOrIgnore_key_mono _ _ _ _ (insertOrIgnore_key_self _ _ _)
  · exact insertOrIgnore_key_self _ _ _

/-- A run of the reconciler in which the INTEGER→TEXT migration does not fire
— because the users table is absent (it is then created with TEXT ids) or its
id type is already non-INTEGER — produces a reconciled state.  The second
hypothesis is the UNIQUE-username constraint's guarantee: when the bootstrap
admin insert can succeed (no admin-role user exists), no user named "admin"
exists either. -/
theorem reconcile_reconciledOk (db : DB) (c : Nat)
    (h1 : db.usersPresent = false ∨ jsToUpper db.usersIdType ≠ "INTEGER")
    (h2 : db.usersRows.any (fun u => u.role = "admin") = true ∨
      ∀ u ∈ db.usersRows, u.username ≠ "admin") :
    ReconciledOk (reconcile db c).1 := by
  have hty4 : jsToUpper
      (addPwChangeColumn (addRecipeColumns (createIfAbsent db))).usersIdType ≠
      "INTEGER" := by
    show jsToUpper (if db.usersPresent = true then db.usersIdType else "TEXT") ≠
      "INTEGER"
    cases hp : db.usersPresent with
    | false =>
      rw [if_neg (by simp)]
      decide
    | true =>
      rw [if_pos rfl]
      rcases h1 with h | h
      · rw [hp] at h
        exact absurd h (by simp)
      · exact h
  have hcond : ((addRecipeColumns (createIfAbsent db)).usersPresent &&
      jsToUpper (addRecipeColumns (createIfAbsent db)).usersIdType =
        "INTEGER") = false := by
    rw [show (addRecipeColumns (createIfAbsent db)).usersPresent = true from rfl]
    simp only [Bool.true_and, decide_eq_false_iff_not]
    exact hty4
  have hrun : (reconcile db c).1 =
      (adminStep (seedSettings (backfillStep (addPwChangeColumn
        (addRecipeColumns (createIfAbsent db))) c).1)
        (backfillStep (addPwChangeColumn
          (addRecipeColumns (createIfAbsent db))) c).2).1 := by
    simp only [reconcile]
    rw [migrateStep_skip _ _ hcond]
  have hsafe4 : (addPwChangeColumn (addRecipeColumns
        (createIfAbsent db))).usersRows.any (fun u => u.role = "admin") =
        true ∨
      ∀ u ∈ (addPwChangeColumn (addRecipeColumns
        (createIfAbsent db))).usersRows, u.username ≠ "admin" := by
    show (if db.usersPresent = true then db.usersRows else []).any
        (fun u => u.role = "admin") = true ∨
      ∀ u ∈ (if db.usersPresent = true then db.usersRows else []),
        u.username ≠ "admin"
    cases hp : db.usersPresent with
    | false =>
      right
      rw [if_neg (by simp)]
      intro u hu
      simp at hu
    | true =>
      rw [if_pos rfl]
      exact h2
  rw [hrun]
  exact tail_steps_ok _ c rfl rfl rfl rfl rfl rfl rfl
    (addColumn_mem_mono _ _ _ (addColumn_mem_mono _ _ _ (addColumn_mem_mono _ _ _
      (addColumn_mem_mono _ _ _ (addColumn_mem_self _ _)))))
    (addColumn_mem_mono _ _ _ (addColumn_mem_mono _ _ _ (addColumn_mem_mono _ _ _
      (addColumn_mem_self _ _))))
    (addColumn_mem_mono _ _ _ (addColumn_mem_mono _ _ _ (addColumn_mem_self _ _)))
    (addColumn_mem_mono _ _ _ (addColumn_mem_self _ _))
    (addColumn_mem_self _ _)
    hty4
    (addColumn_mem_self _ _)
    hsafe4

/-- Whatever the input, a run's output never has an INTEGER-declared users id
type: the migration leaves TEXT, and a skipped migration means the type was
already not INTEGER. -/
theorem reconcile_idType (db : DB) (c : Nat) :
    jsToUpper ((reconcile db c).1.usersIdType) ≠ "INTEGER" := by
  have hO : (reconcile db c).1.usersIdType =
      (migrateStep (addRecipeColumns (createIfAbsent db)) c).1.usersIdType := rfl
  rw [hO, migrateStep]
  split
  · show jsToUpper "TEXT" ≠ "INTEGER"
    decide
  · next h =>
    show jsToUpper (addRecipeColumns (createIfAbsent db)).usersIdType ≠ "INTEGER"
    rw [show (addRecipeColumns (createIfAbsent db)).usersPresent = true
      from rfl] at h
    simpa using h

/-- Whatever the input, a run's output always contains an admin-role user. -/
theorem reconcile_any_admin (db : DB) (c : Nat) :
    (reconcile db c).1.usersRows.any (fun u => u.role = "admin") = true := by
  have hrows : (reconcile db c).1.usersRows =
      (adminFix (backfillStep (addPwChangeColumn
          (migrateStep (addRecipeColumns (createIfAbsent db)) c).1)
          (migrateStep (addRecipeColumns (createIfAbsent db)) c).2).1.usersRows
        (backfillStep (addPwChangeColumn
          (migrateStep (addRecipeColumns (createIfAbsent db)) c).1)
          (migrateStep (addRecipeColumns (createIfAbsent db)) c).2).2).1 := rfl
  rw [hrows]
  exact adminFix_any_admin _ _

/-- C2 (amended): the Schema Reconciler is idempotent on every state produced
by a run in which the INTEGER→TEXT migration did not fire — a second run is
the identity on the database, so the schema, every row, and every row count
are unchanged, no duplicate column, setting, or admin appears — and from the
second run onward this holds unconditionally.  It is NOT idempotent on a state
produced by a migrating run (see the counterexample): that run drops the
additive recipe columns and the next run re-adds them. -/
theorem reconciler_idempotent :
    (∀ (db : DB) (c c2 : Nat),
      (db.usersPresent = false ∨ jsToUpper db.usersIdType ≠ "INTEGER") →
      (db.usersRows.any (fun u => u.role = "admin") = true ∨
        ∀ u ∈ db.usersRows, u.username ≠ "admin") →
      (reconcile (reconcile db c).1 c2).1 = (reconcile db c).1) ∧
    (∀ (db : DB) (c c2 c3 : Nat),
      (reconcile (reconcile (reconcile db c).1 c2).1 c3).1 =
        (reconcile (reconcile db c).1 c2).1) := by
  have key : ∀ (db : DB) (c c2 : Nat),
      (db.usersPresent = false ∨ jsToUpper db.usersIdType ≠ "INTEGER") →
      (db.usersRows.any (fun u => u.role = "admin") = true ∨
        ∀ u ∈ db.usersRows, u.username ≠ "admin") →
      (reconcile (reconcile db c).1 c2).1 = (reconcile db c).1 :=
    fun db c c2 h1 h2 =>
      reconcile_fixed _ _ (reconcile_reconciledOk db c h1 h2)
  refine ⟨key, ?_⟩
  intro db c c2 c3
  exact key (reconcile db c).1 c2 c3 (Or.inr (reconcile_idType db c))
    (Or.inl (reconcile_any_admin db c))

/-- C2 counterexample: on the legacy database (INTEGER user ids), the first
run performs the type migration and recreates `recipes` with only the base
columns; the second run adds the `tags` (etc.) columns back, so the schema
after run 2 differs from the schema after run 1 — the reconciler is not
idempotent on every state it produces. -/
theorem reconciler_not_idempotent_counterexample :
    (reconcile (reconcile legacyDb 0).1 (reconcile legacyDb 0).2).1.recipesCols ≠
      (reconcile legacyDb 0).1.recipesCols := by
  decide

/-- A database file that does not exist yet: every table absent. -/
def blankDb : DB where
  usersPresent := false
  usersIdType := ""
  usersCols := []
  usersRows := []
  settingsPresent := false
  settingsRows := []
  recipesPresent := false
  recipesCols := []
  recipesRows := []
  auditPresent := false
  auditCount := 0
  collectionsPresent := false
  collectionsCount := 0
  mealPlanPresent := false
  mealPlanCount := 0
  recipeImagesPresent := false
  recipeImagesCount := 0

/-- Witness for `reconciler_idempotent`: on a fresh database (no migration
fires), the second run is the identity. -/
theorem reconciler_idempotent_witness :
    blankDb.usersPresent = false ∧
    (reconcile (reconcile blankDb 0).1 5).1 = (reconcile blankDb 0).1 :=
  ⟨rfl, reconciler_idempotent.1 blankDb 0 5 (Or.inl rfl)
    (Or.inr (fun u hu => absurd hu (by simp [blankDb])))⟩

end RecipeDigitizer
